import Mathlib

/-!
# AGRIEDU plant-disease classifier: model loader and disease service

A shallow embedding of `src/models/plant_disease/model-loader.js` and
`src/scripts/data/plant-disease-service.js`.

Conventions of the embedding.

* JavaScript numbers that carry a confidence are rationals: the entries of the `Float32Array`
  read back from the network are taken to be finite values (a `NaN` entry is outside the
  embedding), and the literals `0.1`, `0.5`, `0.4`, `0.3` are `1/10`, `1/2`, `2/5`, `3/10`.  No
  `Float32` value lies between `1/10` and the double `0.1`, so the comparison with the threshold
  is the same on both.  Where the source can produce `NaN` (a sum started from a missing
  property) or `undefined` (an index outside an array) the value is an `Option`, and the doc
  comment of the field says which of the two `none` stands for.
* The TensorFlow.js runtime, `fetch`, the image decoder and `Math.random` are outside the
  repository.  Each call of an embedded method receives the answers the outside world gives
  during that call, as a record; an answer is either a value or a raised error (`Except`, the
  error being the `message` of the raised `Error`).
* `try`/`catch` is `Except` followed by a `match` on it; an object mutated by a method is returned
  as the new state.
* Methods that call the outside world also return the list of the outside calls they made, in
  order, so that "is never invoked" is a statement about that list.
-/

namespace AgriEdu

/-! ## `model-loader.js`: constants -/

/-- Constant `ORIGINAL_CLASS_NAMES` (lines 7-18). -/
def ORIGINAL_CLASS_NAMES : List String :=
  ["Bacterial_spot", "Early_blight", "Late_blight", "Leaf_mold", "Yellow_leaf_curl_virus",
   "Mosaic_virus", "Target_spot", "Spider_mites", "Septoria_leaf_spot", "Healthy"]

/-- Constant `CLASS_NAMES` (lines 21-32). -/
def CLASS_NAMES : List String :=
  ["Bacterial Spot", "Early Blight", "Late Blight", "Leaf Mold", "Yellow Leaf Curl Virus",
   "Mosaic Virus", "Target Spot", "Spider Mites", "Septoria Leaf Spot", "Healthy"]

/-- Constant `CLASS_MAPPING` (lines 35-38): for every index of `ORIGINAL_CLASS_NAMES`, the entry of
`CLASS_NAMES` at that index (`none` is `undefined`). -/
def CLASS_MAPPING : List (Nat × Option String) :=
  (List.range ORIGINAL_CLASS_NAMES.length).map (fun index => (index, CLASS_NAMES[index]?))

/-- Assignment `this.confidenceThreshold = 0.1` (line 45). -/
def confidenceThreshold : ℚ := 1 / 10

/-- Assignment `this.inputShape = [1, 224, 224, 3]` (line 47). -/
def inputShape : List (Option Nat) := [some 1, some 224, some 224, some 3]

/-! ## `model-loader.js`: data -/

/-- The fields of an `HTMLImageElement` that `validateImage` reads. -/
structure HTMLImageElement where
  width : Nat
  height : Nat
  complete : Bool
  deriving DecidableEq, Repr

/-- A value passed as `image`: an `HTMLImageElement`, or anything else (`null`, `undefined`, a
value of another type). -/
inductive ImageInput where
  | htmlImage (img : HTMLImageElement)
  | other
  deriving DecidableEq, Repr

/-- A `tf.LayersModel` as far as the loader looks at it: an identity, and for each entry of
`inputs` its `shape` (`none` when the shape is missing). -/
structure LayersModel where
  id : Nat
  inputs : List (Option (List (Option Nat)))
  deriving DecidableEq, Repr

/-- The mutable fields of `PlantDiseaseModel` (constructor, lines 41-49); `confidenceThreshold`,
`inputSize` and `inputShape` are never assigned after construction and are constants here. -/
structure PlantDiseaseModel where
  model : Option LayersModel
  isModelLoaded : Bool
  fallbackModel : Option LayersModel
  deriving DecidableEq, Repr

/-- The state built by the constructor. -/
def PlantDiseaseModel.new : PlantDiseaseModel :=
  { model := none, isModelLoaded := false, fallbackModel := none }

/-- An entry of `allPredictions` (lines 390-394).  `className` and `originalClassName` are `none`
when the index lies outside the ten names (`undefined`). -/
structure ClassPrediction where
  className : Option String
  originalClassName : Option String
  confidence : ℚ
  deriving DecidableEq, Repr

/-- An entry of `groupedPredictions` (line 383).  `confidence` is `none` for `NaN`. -/
structure GroupedPrediction where
  className : String
  confidence : Option ℚ
  deriving DecidableEq, Repr

/-- The record returned by `predict`.  `className` and `originalClassName` are `none` for
`undefined`; `confidence` is `none` for `undefined` (the entry at index `-1`). -/
structure PredictionResult where
  className : Option String
  originalClassName : Option String
  confidence : Option ℚ
  allPredictions : List ClassPrediction
  groupedPredictions : List GroupedPrediction
  isConfident : Bool
  deriving DecidableEq, Repr

/-- The outside calls `predict` can make. -/
inductive RuntimeCall where
  | fromPixels
  | modelPredict
  deriving DecidableEq, Repr

/-- What the TensorFlow.js runtime answers during one call of `predict`. -/
structure Runtime where
  /-- The `tf.tidy` block of `preprocessImage` (lines 278-293): `true` when it yields the tensor,
  `false` when it raises. -/
  pixelsOk : Bool
  /-- The result of `this.model.predict(processedImg)` followed by `dataSync()` (lines 344-347):
  the output vector, or the raised error. -/
  output : Except String (List ℚ)

/-! ## `model-loader.js`: `validateImage`, `preprocessImage` -/

/-- Method `validateImage` (lines 305-321). -/
def validateImage : ImageInput → Except String Bool
  | .other => .error "Invalid image input"
  | .htmlImage img =>
    if img.width < 32 ∨ img.height < 32 then .error "Image dimensions too small"
    else if !img.complete then .error "Image not fully loaded"
    else .ok true

/-- Method `preprocessImage` (lines 276-298): the tensor, or `null` when the runtime raised. -/
def preprocessImage (rt : Runtime) : Option Unit :=
  if rt.pixelsOk then some () else none

/-! ## `model-loader.js`: the arithmetic of `predict` -/

/-- Expression `Math.max(...xs)`; `none` is `-Infinity`, the value for no arguments. -/
def mathMax : List ℚ → Option ℚ
  | [] => none
  | x :: xs => some (xs.foldl max x)

/-- Expression `xs.indexOf(x)` for a number `x`; `none` is `-1`. -/
def indexOf (x : ℚ) : List ℚ → Option Nat
  | [] => none
  | y :: ys => if y = x then some 0 else (indexOf x ys).map (· + 1)

/-- Expression `predictionArray.indexOf(Math.max(...predictionArray))` (line 348); `-Infinity`
is not an entry of the array. -/
def topPredictionIndex (predictionArray : List ℚ) : Option Nat :=
  match mathMax predictionArray with
  | none => none
  | some m => indexOf m predictionArray

/-- Expression `predictionArray[topPredictionIndex]` (line 349); `none` is `undefined`. -/
def topConfidence (predictionArray : List ℚ) : Option ℚ :=
  match topPredictionIndex predictionArray with
  | none => none
  | some i => predictionArray[i]?

/-- Expression `confidence < this.confidenceThreshold` (line 352); a comparison with `undefined`
is false. -/
def belowThreshold : Option ℚ → Bool
  | none => false
  | some c => decide (c < confidenceThreshold)

/-- Expression `[...new Set(xs)]` (line 371): the first occurrences, in order. -/
def uniqueInOrder (xs : List String) : List String :=
  xs.foldl (fun acc x => if x ∈ acc then acc else acc ++ [x]) []

/-- The own properties of the `groupedPredictions` object, in insertion order; a value `none` is
`NaN`. -/
abbrev Grouped := List (String × Option ℚ)

/-- Expression `obj[key] = value` on an existing property. -/
def Grouped.assign (key : String) (value : Option ℚ) : Grouped → Grouped
  | [] => []
  | (k, v) :: rest =>
    if k = key then (k, value) :: rest else (k, v) :: Grouped.assign key value rest

/-- Expression `groupedPredictions[mappedClass] += conf` (line 378).  A missing property reads
`undefined`, and `undefined + conf` is `NaN`, stored under a new key at the end. -/
def Grouped.addTo (obj : Grouped) (key : String) (conf : ℚ) : Grouped :=
  match obj.lookup key with
  | some old => Grouped.assign key (old.map (· + conf)) obj
  | none => obj ++ [(key, none)]

/-- The property key of `CLASS_NAMES[index]`: the name, or `"undefined"` outside the list. -/
def mappedClassKey (index : Nat) : String :=
  match CLASS_NAMES[index]? with
  | some name => name
  | none => "undefined"

/-- Lines 368-379: every distinct display name starts at `0`, then each entry of the output is
added to the property of its display name. -/
def groupByMappedClass (predictionArray : List ℚ) : Grouped :=
  predictionArray.enum.foldl
    (fun obj entry => Grouped.addTo obj (mappedClassKey entry.1) entry.2)
    ((uniqueInOrder CLASS_NAMES).map (fun className => (className, some 0)))

/-- The comparator `(a, b) => b.confidence - a.confidence` on entries of `allPredictions` does not
put `b` before `a`: its value is at most `0`. -/
def ClassPrediction.notAfter (a b : ClassPrediction) : Prop := b.confidence - a.confidence ≤ 0

instance : DecidableRel ClassPrediction.notAfter :=
  fun a b => inferInstanceAs (Decidable (b.confidence - a.confidence ≤ 0))

/-- The same comparator on entries of `groupedPredictions`; a `NaN` result counts as `+0`, as
`Array.prototype.sort` prescribes. -/
def GroupedPrediction.notAfter (a b : GroupedPrediction) : Prop :=
  match a.confidence, b.confidence with
  | some x, some y => y - x ≤ 0
  | _, _ => True

instance : DecidableRel GroupedPrediction.notAfter := fun a b => by
  unfold GroupedPrediction.notAfter
  split <;> infer_instance

/-- Expression `Array.prototype.sort(compare)`: a stable sort, here by insertion.  On a consistent
comparator every stable sort returns this list; with `NaN` among the keys the order is left to
the engine and this is one of the orders it may return. -/
def jsSort {α : Type} (notAfter : α → α → Prop) [DecidableRel notAfter] (xs : List α) : List α :=
  List.insertionSort notAfter xs

/-- Lines 382-384: `Object.entries`, `map`, `sort`. -/
def groupedPredictionsArray (predictionArray : List ℚ) : List GroupedPrediction :=
  jsSort GroupedPrediction.notAfter
    ((groupByMappedClass predictionArray).map
      (fun entry => ({ className := entry.1, confidence := entry.2 } : GroupedPrediction)))

/-- Lines 390-393, `Array.from(predictionArray).map(...)`: one entry per entry of the output. -/
def classEntries (predictionArray : List ℚ) : List ClassPrediction :=
  predictionArray.enum.map (fun entry =>
    ({ className := CLASS_NAMES[entry.1]?,
       originalClassName := ORIGINAL_CLASS_NAMES[entry.1]?,
       confidence := entry.2 } : ClassPrediction))

/-- Lines 390-394: the entries, sorted. -/
def allPredictionsArray (predictionArray : List ℚ) : List ClassPrediction :=
  jsSort ClassPrediction.notAfter (classEntries predictionArray)

/-- The record of lines 353-360, returned below the threshold. -/
def unknownResult (confidence : Option ℚ) : PredictionResult :=
  { className := some "Unknown", originalClassName := some "Unknown", confidence := confidence,
    allPredictions := [], groupedPredictions := [], isConfident := false }

/-- The record of lines 400-407, returned from the `catch` block. -/
def defaultResult : PredictionResult := unknownResult (some 0)

/-- Lines 346-397 of `predict`: from the output vector to the returned record. -/
def interpret (predictionArray : List ℚ) : PredictionResult :=
  let confidence := topConfidence predictionArray
  if belowThreshold confidence then unknownResult confidence
  else
    { className := (topPredictionIndex predictionArray).bind (fun i => CLASS_NAMES[i]?),
      originalClassName :=
        (topPredictionIndex predictionArray).bind (fun i => ORIGINAL_CLASS_NAMES[i]?),
      confidence := confidence,
      allPredictions := allPredictionsArray predictionArray,
      groupedPredictions := groupedPredictionsArray predictionArray,
      isConfident := true }

/-- The `try` block of `predict` (lines 330-397): the outside calls made, and the record or the
raised error. -/
def PlantDiseaseModel.predictTry (self : PlantDiseaseModel) (rt : Runtime) (image : ImageInput) :
    List RuntimeCall × Except String PredictionResult :=
  match self.model with
  | none => ([], .error "Model not loaded")
  | some _ =>
    match validateImage image with
    | .error e => ([], .error e)
    | .ok _ =>
      match preprocessImage rt with
      | none => ([.fromPixels], .error "Failed to preprocess image")
      | some _ =>
        match rt.output with
        | .error e => ([.fromPixels, .modelPredict], .error e)
        | .ok predictionArray => ([.fromPixels, .modelPredict], .ok (interpret predictionArray))

/-- Method `predict` (lines 328-409): the returned record and the outside calls made. -/
def PlantDiseaseModel.predict (self : PlantDiseaseModel) (rt : Runtime) (image : ImageInput) :
    PredictionResult × List RuntimeCall :=
  match self.predictTry rt image with
  | (calls, .ok result) => (result, calls)
  | (calls, .error _) => (defaultResult, calls)

/-! ## `model-loader.js`: `createSimpleModel`, `loadModel` -/

/-- The `Response` of `fetch(this.modelPath)` as far as `loadModel` reads it. -/
structure FetchResponse where
  ok : Bool
  status : Nat
  /-- The result of `response.json()`: parsed, or the raised error. -/
  json : Except String Unit

/-- What `fetch` and the TensorFlow.js runtime answer during one call of `loadModel`. -/
structure LoadRuntime where
  /-- The `try` block of `createSimpleModel` (lines 89-114): the compiled network, or the error
  raised while building it. -/
  sequential : Except String LayersModel
  /-- The result of `fetch(this.modelPath)` (line 186). -/
  fetch : Except String FetchResponse
  /-- The result of `tf.loadLayersModel(tf.io.fromMemory(fixedModelJSON))` (line 197).
  `fixModelConfig` is one `try`/`catch` that returns in both branches, so it cannot raise, and its
  result is only passed to this call. -/
  loadFromMemory : Except String LayersModel
  /-- The result of `tf.loadLayersModel(this.modelPath)` (line 204). -/
  loadFromPath : Except String LayersModel
  /-- The warm-up of lines 221-223 (`tf.zeros`, `predict`, `dispose`). -/
  warmUp : Except String Unit

/-- Method `createSimpleModel` (lines 87-119); `none` is `null`. -/
def createSimpleModel (rt : LoadRuntime) : Option LayersModel :=
  match rt.sequential with
  | .ok model => some model
  | .error _ => none

/-- Method 1 of `loadModel` (lines 186-197). -/
def loadWithFixedConfig (rt : LoadRuntime) : Except String LayersModel :=
  match rt.fetch with
  | .error e => .error e
  | .ok response =>
    if !response.ok then .error ("HTTP error! status: " ++ toString response.status)
    else
      match response.json with
      | .error e => .error e
      | .ok _ => rt.loadFromMemory

/-- The inner `try`/`catch` of `loadModel` (lines 184-211): the object assigned to `this.model`,
and whether that object is `this.fallbackModel` itself. -/
def chooseModel (rt : LoadRuntime) (fallback : LayersModel) : LayersModel × Bool :=
  match loadWithFixedConfig rt with
  | .ok model => (model, false)
  | .error _ =>
    match rt.loadFromPath with
    | .ok model => (model, false)
    | .error _ => (fallback, true)

/-- Lines 214-217: reading `this.model.inputs[0].shape` raises when `inputs` is empty; a missing
shape is replaced by `this.inputShape`. -/
def ensureInputShape (model : LayersModel) : Except String LayersModel :=
  match model.inputs with
  | [] => .error "Cannot read properties of undefined"
  | none :: rest => .ok { model with inputs := some inputShape :: rest }
  | some _ :: _ => .ok model

/-- Method `loadModel` (lines 175-240): the returned boolean and the new state. -/
def PlantDiseaseModel.loadModel (self : PlantDiseaseModel) (rt : LoadRuntime) :
    Bool × PlantDiseaseModel :=
  match createSimpleModel rt with
  | none => (false, { self with fallbackModel := none, isModelLoaded := false })
  | some fallback =>
    let chosen := chooseModel rt fallback
    match ensureInputShape chosen.1 with
    | .error _ =>
      (true, { model := some fallback, fallbackModel := some fallback, isModelLoaded := true })
    | .ok model =>
      let fallbackNow := if chosen.2 then model else fallback
      match rt.warmUp with
      | .error _ =>
        (true, { model := some fallbackNow, fallbackModel := some fallbackNow,
                 isModelLoaded := true })
      | .ok _ =>
        (true, { model := some model, fallbackModel := some fallbackNow, isModelLoaded := true })

/-! ## `model-loader.js`: `fixModelConfig`

`loadModel` passes the result of `fixModelConfig` to `tf.loadLayersModel` (the answer
`LoadRuntime.loadFromMemory`).  The model JSON is the result of `response.json()`, a tree of
JavaScript values without sharing, so the mutations of the source are updates of the tree. -/

/-- A JavaScript value reachable from the result of `response.json()`: `null`, a boolean, a
number, a string, an array or an object.  An array carries its items and, as every JavaScript
object, the named properties assigned to it; an object carries its own properties in insertion
order. -/
inductive JSValue where
  | null
  | bool (b : Bool)
  | number (q : ℚ)
  | string (s : String)
  | array (items : List JSValue) (props : List (String × JSValue))
  | object (props : List (String × JSValue))

/-- The truthiness of a value that may be `undefined` (`none`): `undefined`, `null`, `false`,
`0` and the empty string are falsy, arrays and objects are truthy. -/
def truthy : Option JSValue → Bool
  | none => false
  | some .null => false
  | some (.bool b) => b
  | some (.number q) => decide (q ≠ 0)
  | some (.string s) => decide (s ≠ "")
  | some (.array _ _) => true
  | some (.object _) => true

/-- The value of an own property in a property list; `none` is `undefined`. -/
def lookupProp (key : String) : List (String × JSValue) → Option JSValue
  | [] => none
  | (k, v) :: rest => if k = key then some v else lookupProp key rest

/-- Assignment to a property in a property list: an existing property keeps its place, a new one
goes to the end. -/
def assignProp (key : String) (value : JSValue) :
    List (String × JSValue) → List (String × JSValue)
  | [] => [(key, value)]
  | (k, v) :: rest =>
    if k = key then (k, value) :: rest else (k, v) :: assignProp key value rest

/-- The read `value.key`, for the property names that `fixModelConfig` reads (`modelTopology`,
`config`, `layers`, `class_name`, `batch_input_shape`: none is an index, `length` or inherited).
Reading a property of `null` raises; a primitive has no such property. -/
def JSValue.get (value : JSValue) (key : String) : Except String (Option JSValue) :=
  match value with
  | .null => .error "Cannot read properties of null"
  | .bool _ => .ok none
  | .number _ => .ok none
  | .string _ => .ok none
  | .array _ props => .ok (lookupProp key props)
  | .object props => .ok (lookupProp key props)

/-- The read `value.key` when `value` may be `undefined`: reading a property of `undefined`
raises. -/
def getOf (value : Option JSValue) (key : String) : Except String (Option JSValue) :=
  match value with
  | none => .error "Cannot read properties of undefined"
  | some v => v.get key

/-- The assignment `value.key = x` in strict mode (the file is an ES module): it raises on
`null` and on a primitive, and sets the property of an array or an object. -/
def JSValue.set (value : JSValue) (key : String) (x : JSValue) : Except String JSValue :=
  match value with
  | .null => .error "Cannot set properties of null"
  | .bool _ => .error "Cannot create property on boolean"
  | .number _ => .error "Cannot create property on number"
  | .string _ => .error "Cannot create property on string"
  | .array items props => .ok (.array items (assignProp key x props))
  | .object props => .ok (.object (assignProp key x props))

/-- The assignment `value.key = x` when `value` may be `undefined`. -/
def setOf (value : Option JSValue) (key : String) (x : JSValue) : Except String JSValue :=
  match value with
  | none => .error "Cannot set properties of undefined"
  | some v => v.set key x


/-- The read of a chain of properties, `value.a.b.c`. -/
def getPath : List String → Option JSValue → Except String (Option JSValue)
  | [], value => .ok value
  | key :: rest, value =>
    match getOf value key with
    | .error e => .error e
    | .ok child => getPath rest child

/-- The root after the object reached from it by `path` has been mutated by `change`: the
chain of reads raises as `getPath` does, and every object on the way holds the new child. -/
def modifyAt (change : JSValue → Except String JSValue) :
    List String → JSValue → Except String JSValue
  | [], value => change value
  | key :: rest, value =>
    match value.get key with
    | .error e => .error e
    | .ok none => .error "Cannot read properties of undefined"
    | .ok (some child) =>
      match modifyAt change rest child with
      | .error e => .error e
      | .ok newChild => value.set key newChild

/-- The shape `[null, 224, 224, 3]` of lines 147 and 160. -/
def fixedInputShape : JSValue :=
  .array [.null, .number 224, .number 224, .number 3] []

/-- The layer inserted by `unshift` (lines 144-153). -/
def inputLayer : JSValue :=
  .object
    [("class_name", .string "InputLayer"),
     ("config", .object
       [("batch_input_shape", fixedInputShape), ("dtype", .string "float32"),
        ("name", .string "input_1"), ("sparse", .bool false)]),
     ("name", .string "input_1")]

/-- The test `layer.class_name === 'InputLayer'` on the value read. -/
def isInputLayerName : Option JSValue → Bool
  | some (.string s) => s == "InputLayer"
  | _ => false

/-- The call `items.some(layer => layer.class_name === 'InputLayer')` (lines 139-141): it stops at
the first layer that passes the test, and raises on a `null` layer met before. -/
def someInputLayer : List JSValue → Except String Bool
  | [] => .ok false
  | layer :: rest =>
    match layer.get "class_name" with
    | .error e => .error e
    | .ok name => if isInputLayerName name then .ok true else someInputLayer rest

/-- The call `layers.some(...)` on the value of `layers`: only an array has the method. -/
def hasInputLayer : Option JSValue → Except String Bool
  | some (.array items _) => someInputLayer items
  | _ => .error "layers.some is not a function"

/-- The call `layers.unshift(inputLayer)` (line 144). -/
def unshiftInputLayer : JSValue → Except String JSValue
  | .array items props => .ok (.array (inputLayer :: items) props)
  | _ => .error "layers.unshift is not a function"

/-- Lines 128-130: `if (!modelJSON.modelTopology) modelJSON.modelTopology = {}`. -/
def ensureTopology (modelJSON : JSValue) : Except String JSValue :=
  match modelJSON.get "modelTopology" with
  | .error e => .error e
  | .ok topology =>
    if truthy topology then .ok modelJSON else modelJSON.set "modelTopology" (.object [])

/-- Lines 131-133: `if (!modelJSON.modelTopology.config) modelJSON.modelTopology.config = {}`. -/
def ensureConfig (modelJSON : JSValue) : Except String JSValue :=
  match getPath ["modelTopology", "config"] (some modelJSON) with
  | .error e => .error e
  | .ok config =>
    if truthy config then .ok modelJSON
    else modifyAt (fun topology => topology.set "config" (.object [])) ["modelTopology"] modelJSON

/-- Lines 134-136: the same for `modelJSON.modelTopology.config.layers` and `[]`. -/
def ensureLayers (modelJSON : JSValue) : Except String JSValue :=
  match getPath ["modelTopology", "config", "layers"] (some modelJSON) with
  | .error e => .error e
  | .ok layers =>
    if truthy layers then .ok modelJSON
    else
      modifyAt (fun config => config.set "layers" (.array [] [])) ["modelTopology", "config"]
        modelJSON

/-- Lines 139-154: the input layer is put in front when no layer is an `InputLayer`. -/
def addInputLayer (modelJSON : JSValue) : Except String JSValue :=
  match getPath ["modelTopology", "config", "layers"] (some modelJSON) with
  | .error e => .error e
  | .ok layers =>
    match hasInputLayer layers with
    | .error e => .error e
    | .ok true => .ok modelJSON
    | .ok false => modifyAt unshiftInputLayer ["modelTopology", "config", "layers"] modelJSON

/-- Lines 159-161 on the first layer: `if (!firstLayer.config.batch_input_shape)
firstLayer.config.batch_input_shape = [null, 224, 224, 3]`. -/
def ensureShape (firstLayer : JSValue) : Except String JSValue :=
  match getPath ["config", "batch_input_shape"] (some firstLayer) with
  | .error e => .error e
  | .ok shape =>
    if truthy shape then .ok firstLayer
    else modifyAt (fun config => config.set "batch_input_shape" fixedInputShape) ["config"]
      firstLayer

/-- Lines 157-162 on the array of layers: nothing for an empty array, else the first layer gets
its shape.  Line 139 has raised before when `layers` is not an array. -/
def ensureFirstLayerShape : JSValue → Except String JSValue
  | .array [] props => .ok (.array [] props)
  | .array (firstLayer :: rest) props =>
    match ensureShape firstLayer with
    | .error e => .error e
    | .ok newFirst => .ok (.array (newFirst :: rest) props)
  | _ => .error "layers is not an array"

/-- Lines 157-162. -/
def ensureFirstShape (modelJSON : JSValue) : Except String JSValue :=
  modifyAt ensureFirstLayerShape ["modelTopology", "config", "layers"] modelJSON

/-- The statements of a `try` block run in order on the object `modelJSON` refers to; when one
raises, the `catch` block sees the object as the statements before have left it. -/
def runStatements : List (JSValue → Except String JSValue) → JSValue → JSValue
  | [], modelJSON => modelJSON
  | statement :: rest, modelJSON =>
    match statement modelJSON with
    | .error _ => modelJSON
    | .ok next => runStatements rest next

/-- Method `fixModelConfig` (lines 126-169): both the `try` block and the `catch` block return
`modelJSON`.  Every statement mutates at most once, as its last action. -/
def fixModelConfig (modelJSON : JSValue) : JSValue :=
  runStatements [ensureTopology, ensureConfig, ensureLayers, addInputLayer, ensureFirstShape]
    modelJSON

/-- The layer list of a model JSON, `modelTopology.config.layers`, when it is an array. -/
def layersOf (modelJSON : JSValue) : Option (List JSValue) :=
  match getPath ["modelTopology", "config", "layers"] (some modelJSON) with
  | .ok (some (.array items _)) => some items
  | _ => none

/-- The layer is an `InputLayer`: its `class_name` is that string. -/
def isInputLayer (layer : JSValue) : Bool :=
  match layer.get "class_name" with
  | .ok name => isInputLayerName name
  | .error _ => false

/-- The `batch_input_shape` that a layer declares in its `config`; `none` when it declares
none. -/
def declaredShape (layer : JSValue) : Option JSValue :=
  match getPath ["config", "batch_input_shape"] (some layer) with
  | .ok shape => shape
  | .error _ => none

/-- A layer as Keras writes it: an object whose `config` is an object. -/
def isLayerObject : JSValue → Bool
  | .object props =>
    match lookupProp "config" props with
    | some (.object _) => true
    | _ => false
  | _ => false

/-- The value of `layers` is missing or falsy, or an array of layer objects. -/
def wellFormedLayers : Option JSValue → Bool
  | some (.array items _) => items.all isLayerObject
  | layers => !truthy layers

/-- The value of `config` is missing or falsy, or an object with well-formed `layers`. -/
def wellFormedConfig : Option JSValue → Bool
  | some (.object props) => wellFormedLayers (lookupProp "layers" props)
  | config => !truthy config

/-- The value of `modelTopology` is missing or falsy, or an object with a well-formed
`config`. -/
def wellFormedTopology : Option JSValue → Bool
  | some (.object props) => wellFormedConfig (lookupProp "config" props)
  | topology => !truthy topology

/-- A model JSON object in which `modelTopology`, `config` and `layers` are each missing (or
falsy) or of the kind Keras writes: objects, and an array of layer objects. -/
def wellFormedModel : JSValue → Bool
  | .object props => wellFormedTopology (lookupProp "modelTopology" props)
  | _ => false

/-- The layers a model JSON declares: its layer list, or none when it has no layer list. -/
def declaredLayers (modelJSON : JSValue) : List JSValue :=
  match layersOf modelJSON with
  | some items => items
  | none => []

/-- The model JSON is an object whose `modelTopology` and `modelTopology.config` are objects and
whose `modelTopology.config.layers` is the value `layers`. -/
def HasLayers (modelJSON layers : JSValue) : Prop :=
  ∃ props topology config, modelJSON = .object props ∧
    lookupProp "modelTopology" props = some (.object topology) ∧
    lookupProp "config" topology = some (.object config) ∧
    lookupProp "layers" config = some layers

/-! ## `plant-disease-service.js`: data -/

/-- A record of the `diseaseInfo` table. -/
structure DiseaseInfo where
  description : String
  treatment : String
  prevention : String
  deriving DecidableEq, Repr

/-- Field `this.diseaseInfo` (lines 7-63), its properties in insertion order. -/
def diseaseInfo : List (String × DiseaseInfo) :=
  [
   ("Healthy",
    { description := "Tanaman Anda terlihat sehat.",
      treatment := "Lanjutkan perawatan rutin dengan menyiram secukupnya dan berikan pupuk sesuai kebutuhan.",
      prevention := "Jaga kebersihan area sekitar tanaman dan lakukan pemeriksaan rutin untuk deteksi dini penyakit." }),
   ("Bacterial Spot",
    { description := "Bercak bakteri adalah penyakit yang disebabkan oleh bakteri Xanthomonas spp. yang menyebabkan bercak-bercak kecil berwarna coklat atau hitam pada daun, batang, dan buah.",
      treatment := "Buang bagian tanaman yang terinfeksi. Aplikasikan bakterisida berbahan aktif tembaga atau streptomisin. Hindari menyiram daun secara langsung.",
      prevention := "Gunakan benih bersertifikat. Jaga jarak tanam yang cukup. Hindari menyiram daun di sore hari. Rotasi tanaman setiap musim." }),
   ("Early Blight",
    { description := "Early blight adalah penyakit jamur yang menyebabkan bercak-bercak konsentris pada daun, batang, dan buah. Biasanya dimulai dari daun bagian bawah.",
      treatment := "Buang daun yang terinfeksi. Aplikasikan fungisida berbahan aktif klorotalonil atau mankozeb. Pastikan drainase tanah baik.",
      prevention := "Gunakan varietas tahan penyakit. Rotasi tanaman. Jaga jarak tanam yang cukup. Hindari menyiram daun di sore hari." }),
   ("Late Blight",
    { description := "Late blight adalah penyakit jamur yang menyebabkan bercak-bercak berair pada daun dan batang, serta pembusukan pada buah. Dapat menyebar dengan cepat dalam kondisi lembab.",
      treatment := "Buang dan hancurkan bagian tanaman yang terinfeksi. Aplikasikan fungisida berbahan aktif tembaga atau metalaksil. Tingkatkan sirkulasi udara.",
      prevention := "Gunakan varietas tahan penyakit. Rotasi tanaman. Jaga jarak tanam yang cukup. Hindari menyiram daun di sore hari." }),
   ("Leaf Mold",
    { description := "Leaf mold adalah penyakit jamur yang menyebabkan bercak-bercak kuning pada permukaan atas daun dan pertumbuhan jamur berwarna abu-abu di permukaan bawah.",
      treatment := "Buang daun yang terinfeksi. Aplikasikan fungisida berbahan aktif klorotalonil atau mankozeb. Tingkatkan sirkulasi udara.",
      prevention := "Gunakan varietas tahan penyakit. Jaga jarak tanam yang cukup. Hindari kelembaban tinggi. Rotasi tanaman." }),
   ("Yellow Leaf Curl Virus",
    { description := "Virus keriting daun kuning adalah penyakit virus yang menyebabkan daun mengeriting ke atas dan menguning, serta pertumbuhan tanaman terhambat.",
      treatment := "Buang tanaman yang terinfeksi. Kendalikan vektor virus (kutu kebul) dengan insektisida. Gunakan perangkap kuning.",
      prevention := "Gunakan benih bersertifikat. Pasang jaring anti serangga. Kendalikan gulma. Rotasi tanaman." }),
   ("Mosaic Virus",
    { description := "Virus mosaik menyebabkan pola mosaik hijau-kuning pada daun, pertumbuhan terhambat, dan daun mengeriting.",
      treatment := "Buang tanaman yang terinfeksi. Kendalikan vektor virus (kutu daun) dengan insektisida. Gunakan perangkap kuning.",
      prevention := "Gunakan benih bersertifikat. Pasang jaring anti serangga. Kendalikan gulma. Rotasi tanaman." }),
   ("Target Spot",
    { description := "Target spot adalah penyakit jamur yang menyebabkan bercak-bercak konsentris dengan pusat berwarna coklat dan tepi kuning pada daun.",
      treatment := "Buang daun yang terinfeksi. Aplikasikan fungisida berbahan aktif klorotalonil atau mankozeb. Tingkatkan sirkulasi udara.",
      prevention := "Gunakan varietas tahan penyakit. Jaga jarak tanam yang cukup. Hindari kelembaban tinggi. Rotasi tanaman." }),
   ("Spider Mites",
    { description := "Tungau laba-laba adalah hama kecil yang menghisap cairan tanaman, menyebabkan bintik-bintik kuning pada daun dan jaring halus di permukaan bawah daun.",
      treatment := "Semprotkan air bertekanan kuat untuk menghilangkan tungau. Aplikasikan minyak hortikultura atau sabun insektisida. Untuk serangan parah, gunakan akarisida.",
      prevention := "Jaga kelembaban udara yang cukup. Periksa tanaman secara rutin. Introduksi predator alami seperti kumbang ladybug." }),
   ("Septoria Leaf Spot",
    { description := "Bercak daun septoria adalah penyakit jamur yang menyebabkan bercak-bercak kecil berwarna coklat dengan pusat abu-abu pada daun.",
      treatment := "Buang daun yang terinfeksi. Aplikasikan fungisida berbahan aktif klorotalonil atau mankozeb. Pastikan drainase tanah baik.",
      prevention := "Gunakan varietas tahan penyakit. Rotasi tanaman. Jaga jarak tanam yang cukup. Hindari menyiram daun di sore hari." }),
   ("Unknown",
    { description := "Tidak dapat menentukan penyakit dengan pasti. Silakan coba ambil foto dengan pencahayaan yang lebih baik dan fokus pada bagian tanaman yang terinfeksi.",
      treatment := "Konsultasikan dengan ahli pertanian untuk penanganan yang tepat.",
      prevention := "Lakukan pemeriksaan rutin pada tanaman dan jaga kebersihan area sekitar tanaman." })
  ]

/-- The mutable fields of `PlantDiseaseService` (constructor, lines 4-6). -/
structure PlantDiseaseService where
  isModelLoaded : Bool
  simulationMode : Bool
  deriving DecidableEq, Repr

/-- The state built by the constructor. -/
def PlantDiseaseService.new : PlantDiseaseService :=
  { isModelLoaded := false, simulationMode := false }

/-- A value passed as `imageInput`: a `File`, an `HTMLImageElement`, or anything else. -/
inductive DiagnoseInput where
  | file
  | image (img : HTMLImageElement)
  | other
  deriving DecidableEq, Repr

/-- What the browser does with the `Image` created in `_createImageFromFile`: it fires `onload`,
it fires `onerror`, or the executor raises (`URL.createObjectURL`). -/
inductive ImageLoad where
  | onload (img : HTMLImageElement)
  | onerror
  | raised (message : String)
  deriving DecidableEq, Repr

/-- The outside calls the service can make. -/
inductive ServiceCall where
  | loadModel
  | createImageFromFile
  | modelPredict
  | simulatedPrediction
  deriving DecidableEq, Repr

/-- What the model loader, the browser and `Math.random` answer during one call of
`diagnosePlant`. -/
structure ServiceRuntime where
  /-- The result of `plantDiseaseModel.loadModel()`. -/
  loadModel : Except String Bool
  /-- The fate of the image built from the file. -/
  imageLoad : ImageLoad
  /-- The result of `plantDiseaseModel.predict(imgElement)`. -/
  predict : ImageInput → Except String PredictionResult
  /-- The successive values of `Math.random()`, numbered from `0`. -/
  random : Nat → ℚ

/-- The record returned by `diagnosePlant`.  `allPredictions` and `groupedPredictions` are `none`
when the record has no such field, `diseaseInfo` is `none` for `undefined`, `error` is `none` when
the record has no `error` field. -/
structure Diagnosis where
  className : Option String
  originalClassName : Option String
  confidence : Option ℚ
  allPredictions : Option (List ClassPrediction)
  groupedPredictions : Option (List GroupedPrediction)
  isConfident : Bool
  diseaseInfo : Option DiseaseInfo
  error : Option String
  deriving DecidableEq, Repr

/-! ## `plant-disease-service.js`: `initModel` -/

/-- Method `initModel` (lines 69-89): the returned boolean, the new state, the outside calls
made. -/
def PlantDiseaseService.initModel (self : PlantDiseaseService) (loadModel : Except String Bool) :
    Bool × PlantDiseaseService × List ServiceCall :=
  if !self.isModelLoaded then
    match loadModel with
    | .ok true => (true, { self with isModelLoaded := true, simulationMode := false }, [.loadModel])
    | .ok false => (false, { self with simulationMode := true }, [.loadModel])
    | .error _ => (false, { self with simulationMode := true }, [.loadModel])
  else (true, self, [])

/-! ## `plant-disease-service.js`: `_getSimulatedPrediction`, `_createImageFromFile` -/

/-- Expression `Object.keys(this.diseaseInfo).filter(cls => cls !== 'Unknown')` (line 152). -/
def diseaseClasses : List String :=
  (diseaseInfo.map Prod.fst).filter (fun cls => cls ≠ "Unknown")

/-- Expression `Math.floor(Math.random() * diseaseClasses.length)` (line 153), on the first draw. -/
def randomIndex (random : Nat → ℚ) : ℤ := ⌊random 0 * (diseaseClasses.length : ℚ)⌋

/-- Expression `diseaseClasses[randomIndex]` (line 154); `none` is `undefined`. -/
def simulatedClassName (random : Nat → ℚ) : Option String :=
  if randomIndex random < 0 then none else diseaseClasses[(randomIndex random).toNat]?

/-- Expression `0.5 + Math.random() * 0.4` (line 157), on the second draw. -/
def mainConfidence (random : Nat → ℚ) : ℚ := 1 / 2 + random 1 * (2 / 5)

/-- The `map` of lines 160-163 before sorting: the chosen class gets `mainConfidence`, every other
class the next draw times `0.3`; `next` is the number of the next draw. -/
def simulatedEntries (className : Option String) (main : ℚ) (random : Nat → ℚ) :
    Nat → List String → List (String × ℚ)
  | _, [] => []
  | next, cls :: rest =>
    if some cls = className then (cls, main) :: simulatedEntries className main random next rest
    else (cls, random next * (3 / 10)) :: simulatedEntries className main random (next + 1) rest

/-- The comparator `(a, b) => b.confidence - a.confidence` on the entries of the simulator. -/
def entryNotAfter (a b : String × ℚ) : Prop := b.2 - a.2 ≤ 0

instance : DecidableRel entryNotAfter :=
  fun a b => inferInstanceAs (Decidable (b.2 - a.2 ≤ 0))

/-- The sorted `groupedPredictions` of lines 160-163, as pairs. -/
def simulatedSorted (random : Nat → ℚ) : List (String × ℚ) :=
  jsSort entryNotAfter
    (simulatedEntries (simulatedClassName random) (mainConfidence random) random 2 diseaseClasses)

/-- The name interpolated in a template literal. -/
def interpolate : Option String → String
  | some name => name
  | none => "undefined"

/-- Method `_getSimulatedPrediction` (lines 150-177). -/
def _getSimulatedPrediction (random : Nat → ℚ) : PredictionResult :=
  { className := simulatedClassName random,
    originalClassName := some ("Sample " ++ interpolate (simulatedClassName random)),
    confidence := some (mainConfidence random),
    allPredictions := (simulatedSorted random).map (fun p =>
      ({ className := some p.1, originalClassName := some ("Sample " ++ p.1),
         confidence := p.2 } : ClassPrediction)),
    groupedPredictions := (simulatedSorted random).map (fun p =>
      ({ className := p.1, confidence := some p.2 } : GroupedPrediction)),
    isConfident := true }

/-- Method `_createImageFromFile` (lines 184-191): the promise resolves with the image or
rejects. -/
def _createImageFromFile : ImageLoad → Except String HTMLImageElement
  | .onload img => .ok img
  | .onerror => .error "Gagal memuat gambar"
  | .raised message => .error message

/-! ## `plant-disease-service.js`: `diagnosePlant` -/

/-- Expression `prediction.className || 'Unknown'` (line 125): `undefined` and the empty string
are falsy. -/
def diseaseClassOf (className : Option String) : String :=
  match className with
  | none => "Unknown"
  | some name => if name = "" then "Unknown" else name

/-- Expression `this.diseaseInfo[diseaseClass] || this.diseaseInfo['Unknown']` (line 128), on
the own properties of the table (no class name produced by the model loader or the simulator is
a property of `Object.prototype`). -/
def diseaseInfoFor (diseaseClass : String) : Option DiseaseInfo :=
  match diseaseInfo.lookup diseaseClass with
  | some info => some info
  | none => diseaseInfo.lookup "Unknown"

/-- Lines 125-129: the prediction spread into a new record, with its `diseaseInfo`. -/
def withDiseaseInfo (prediction : PredictionResult) : Diagnosis :=
  { className := prediction.className,
    originalClassName := prediction.originalClassName,
    confidence := prediction.confidence,
    allPredictions := some prediction.allPredictions,
    groupedPredictions := some prediction.groupedPredictions,
    isConfident := prediction.isConfident,
    diseaseInfo := diseaseInfoFor (diseaseClassOf prediction.className),
    error := none }

/-- The record of lines 135-142, returned from the `catch` block. -/
def errorDiagnosis (message : String) : Diagnosis :=
  { className := some "Unknown", originalClassName := some "Unknown", confidence := some 0,
    allPredictions := none, groupedPredictions := none, isConfident := false,
    diseaseInfo := diseaseInfo.lookup "Unknown", error := some message }

/-- Lines 114-122: the simulator in simulation mode, the model otherwise. -/
def PlantDiseaseService.choosePrediction (self : PlantDiseaseService) (rt : ServiceRuntime)
    (img : HTMLImageElement) : Except String PredictionResult × List ServiceCall :=
  if self.simulationMode then (.ok (_getSimulatedPrediction rt.random), [.simulatedPrediction])
  else (rt.predict (.htmlImage img), [.modelPredict])

/-- Lines 99-101, `if (!this.isModelLoaded) await this.initModel()`: the new state and the outside
calls made. -/
def PlantDiseaseService.ensureModel (self : PlantDiseaseService) (rt : ServiceRuntime) :
    PlantDiseaseService × List ServiceCall :=
  if !self.isModelLoaded then (self.initModel rt.loadModel).2 else (self, [])

/-- The `try` block of `diagnosePlant` up to the prediction (lines 98-122): the prediction or the
raised error, the new state, the outside calls made. -/
def PlantDiseaseService.diagnoseTry (self : PlantDiseaseService) (rt : ServiceRuntime)
    (imageInput : DiagnoseInput) :
    Except String PredictionResult × PlantDiseaseService × List ServiceCall :=
  let init := self.ensureModel rt
  match imageInput with
  | .other => (.error "Input harus berupa File atau HTMLImageElement", init.1, init.2)
  | .file =>
    match _createImageFromFile rt.imageLoad with
    | .error message => (.error message, init.1, init.2 ++ [.createImageFromFile])
    | .ok img =>
      let chosen := init.1.choosePrediction rt img
      (chosen.1, init.1, init.2 ++ [.createImageFromFile] ++ chosen.2)
  | .image img =>
    let chosen := init.1.choosePrediction rt img
    (chosen.1, init.1, init.2 ++ chosen.2)

/-- Method `diagnosePlant` (lines 96-144): the returned record, the new state, the outside calls
made. -/
def PlantDiseaseService.diagnosePlant (self : PlantDiseaseService) (rt : ServiceRuntime)
    (imageInput : DiagnoseInput) : Diagnosis × PlantDiseaseService × List ServiceCall :=
  match self.diagnoseTry rt imageInput with
  | (.ok prediction, state, calls) => (withDiseaseInfo prediction, state, calls)
  | (.error message, state, calls) => (errorDiagnosis message, state, calls)

/-- A call made on a service instance, with the answers of the outside world during it. -/
inductive ServiceOp where
  | initModel (loadModel : Except String Bool)
  | diagnosePlant (rt : ServiceRuntime) (imageInput : DiagnoseInput)

/-- The state after one call. -/
def PlantDiseaseService.step (self : PlantDiseaseService) : ServiceOp → PlantDiseaseService
  | .initModel loadModel => (self.initModel loadModel).2.1
  | .diagnosePlant rt imageInput => (self.diagnosePlant rt imageInput).2.1

/-- The state after a sequence of calls. -/
def PlantDiseaseService.run (self : PlantDiseaseService) (ops : List ServiceOp) :
    PlantDiseaseService :=
  ops.foldl PlantDiseaseService.step self

/-- An entry of `allPredictions` with its `originalClassName` dropped, as an entry of
`groupedPredictions`. -/
def dropOriginal (p : ClassPrediction) : GroupedPrediction :=
  { className := interpolate p.className, confidence := some p.confidence }

/-- The loader did not report success: it returned `false` or raised. -/
def loadFailed : Except String Bool → Bool
  | .ok true => false
  | _ => true

/-- The load attempt that a call may make does not succeed. -/
def ServiceOp.loadFailed : ServiceOp → Bool
  | .initModel loadModel => AgriEdu.loadFailed loadModel
  | .diagnosePlant rt _ => AgriEdu.loadFailed rt.loadModel

/-- The answers of a loader in state `loader` whose runtime answers `rt` to `predict`: the service
calls the `predict` of the model loader. -/
def ServiceRuntime.ofLoader (loader : PlantDiseaseModel) (rt : Runtime)
    (loadModel : Except String Bool) (imageLoad : ImageLoad) (random : Nat → ℚ) : ServiceRuntime :=
  { loadModel := loadModel, imageLoad := imageLoad,
    predict := fun image => .ok (loader.predict rt image).1, random := random }

/-! ## Concrete inputs used in the examples -/

/-- A network with one input of shape `[null, 224, 224, 3]`. -/
def sampleNetwork : LayersModel :=
  { id := 1, inputs := [some [none, some 224, some 224, some 3]] }

/-- A loader after a successful `loadModel`. -/
def loadedModel : PlantDiseaseModel :=
  { model := some sampleNetwork, isModelLoaded := true, fallbackModel := some sampleNetwork }

/-- A fully loaded 640 x 480 image. -/
def photo : HTMLImageElement := { width := 640, height := 480, complete := true }

/-- A fully loaded image that is 31 pixels wide. -/
def narrowPhoto : HTMLImageElement := { width := 31, height := 640, complete := true }

/-- The output of the example of the specification: `0.05` nine times, `0.55` for `Healthy`. -/
def healthyOutput : List ℚ :=
  [1 / 20, 1 / 20, 1 / 20, 1 / 20, 1 / 20, 1 / 20, 1 / 20, 1 / 20, 1 / 20, 11 / 20]

/-- A runtime that preprocesses the image and answers `healthyOutput`. -/
def healthyRuntime : Runtime := { pixelsOk := true, output := .ok healthyOutput }

/-- A `Math.random` that always answers `0.7`. -/
def steadyRandom : Nat → ℚ := fun _ => 7 / 10

/-- Answers of the outside world in which the loader returns `false` and the file does not
decode. -/
def failingService : ServiceRuntime :=
  { loadModel := .ok false, imageLoad := .onerror, predict := fun _ => .ok defaultResult,
    random := steadyRandom }

/-- Answers of the outside world in which the loader returns `true`. -/
def workingService : ServiceRuntime :=
  { loadModel := .ok true, imageLoad := .onerror, predict := fun _ => .ok defaultResult,
    random := steadyRandom }

/-- Answers in which the fallback network is built, both load methods fail and the warm-up
succeeds. -/
def offlineLoad : LoadRuntime :=
  { sequential := .ok sampleNetwork, fetch := .error "Failed to fetch",
    loadFromMemory := .error "unused", loadFromPath := .error "Failed to fetch",
    warmUp := .ok () }

/-- A model JSON whose only layer is an `InputLayer` declaring `[null, 128, 128, 3]`. -/
def smallInputModel : JSValue :=
  .object
    [("modelTopology", .object
      [("config", .object
        [("layers", .array
          [.object
            [("class_name", .string "InputLayer"),
             ("config", .object
               [("batch_input_shape",
                 .array [.null, .number 128, .number 128, .number 3] [])])]] [])])])]

/-- A model JSON whose `layers` is not an array. -/
def brokenLayersModel : JSValue :=
  .object
    [("modelTopology", .object [("config", .object [("layers", .string "none")])])]

/-- A model JSON without `modelTopology`. -/
def emptyModel : JSValue := .object [("format", .string "layers-model")]

/-- A sequential model JSON of one `Dense` layer that declares no input shape. -/
def denseModel : JSValue :=
  .object
    [("modelTopology", .object
      [("config", .object
        [("layers", .array
          [.object
            [("class_name", .string "Dense"),
             ("config", .object [("units", .number 10)])]] [])])])]

/-! ## Lemmas and theorems -/

set_option maxRecDepth 100000

/-! ### The arg-max -/

theorem foldl_max_eq (xs : List ℚ) (x m : ℚ) (hmem : m = x ∨ m ∈ xs) (hx : x ≤ m)
    (hmax : ∀ y ∈ xs, y ≤ m) : xs.foldl max x = m := by
  induction xs generalizing x with
  | nil =>
    rcases hmem with h | h
    · exact h.symm
    · simp at h
  | cons y ys ih =>
    simp only [List.foldl_cons]
    have hy : y ≤ m := hmax y (List.mem_cons_self _ _)
    apply ih
    · rcases hmem with h | h
      · left; rw [h]; exact (max_eq_left (h ▸ hy)).symm
      · rcases List.mem_cons.mp h with h | h
        · left; rw [h]; exact (max_eq_right (h ▸ hx)).symm
        · right; exact h
    · exact max_le hx hy
    · intro z hz; exact hmax z (List.mem_cons_of_mem _ hz)

theorem mathMax_eq_some (v : List ℚ) (m : ℚ) (hmem : m ∈ v) (hmax : ∀ x ∈ v, x ≤ m) :
    mathMax v = some m := by
  cases v with
  | nil => simp at hmem
  | cons x xs =>
    simp only [mathMax, Option.some.injEq]
    apply foldl_max_eq
    · simpa [eq_comm] using hmem
    · exact hmax x (List.mem_cons_self _ _)
    · intro y hy; exact hmax y (List.mem_cons_of_mem _ hy)

theorem indexOf_eq_some (m : ℚ) (v : List ℚ) (i : Nat) (hi : v[i]? = some m)
    (hfirst : ∀ j, j < i → v[j]? ≠ some m) : indexOf m v = some i := by
  induction v generalizing i with
  | nil => simp at hi
  | cons y ys ih =>
    cases i with
    | zero =>
      simp only [List.getElem?_cons_zero, Option.some.injEq] at hi
      simp [indexOf, hi]
    | succ k =>
      have h0 : y ≠ m := by
        have := hfirst 0 (Nat.succ_pos k)
        simpa using this
      simp only [List.getElem?_cons_succ] at hi
      have := ih k hi (fun j hj => by simpa using hfirst (j + 1) (Nat.succ_lt_succ hj))
      simp [indexOf, h0, this]

theorem indexOf_of_mem (m : ℚ) (v : List ℚ) (hmem : m ∈ v) :
    ∃ i, indexOf m v = some i ∧ v[i]? = some m ∧ ∀ j, j < i → v[j]? ≠ some m := by
  induction v with
  | nil => simp at hmem
  | cons y ys ih =>
    by_cases hy : y = m
    · exact ⟨0, by simp [indexOf, hy], by simp [hy], fun j hj => absurd hj (Nat.not_lt_zero j)⟩
    · have hm : m ∈ ys := by
        rcases List.mem_cons.mp hmem with h | h
        · exact absurd h.symm hy
        · exact h
      obtain ⟨i, h1, h2, h3⟩ := ih hm
      refine ⟨i + 1, by simp [indexOf, hy, h1], by simpa using h2, ?_⟩
      intro j hj
      cases j with
      | zero => simpa using hy
      | succ k => simpa using h3 k (Nat.lt_of_succ_lt_succ hj)

theorem topConfidence_eq_max (v : List ℚ) (m : ℚ) (hmem : m ∈ v) (hmax : ∀ x ∈ v, x ≤ m) :
    topConfidence v = some m := by
  obtain ⟨i, h1, h2, _⟩ := indexOf_of_mem m v hmem
  simp [topConfidence, topPredictionIndex, mathMax_eq_some v m hmem hmax, h1, h2]

/-! ### `predict`: rejected images and the threshold -/

theorem validateImage_ok (img : HTMLImageElement) (hw : 32 ≤ img.width) (hh : 32 ≤ img.height)
    (hc : img.complete = true) : validateImage (.htmlImage img) = .ok true := by
  simp [validateImage, hc, Nat.not_lt.mpr hw, Nat.not_lt.mpr hh]

theorem predict_of_output (self : PlantDiseaseModel) (rt : Runtime) (img : HTMLImageElement)
    (model : LayersModel) (v : List ℚ) (hmodel : self.model = some model)
    (hw : 32 ≤ img.width) (hh : 32 ≤ img.height) (hc : img.complete = true)
    (hpix : rt.pixelsOk = true) (hout : rt.output = .ok v) :
    self.predict rt (.htmlImage img) = (interpret v, [.fromPixels, .modelPredict]) := by
  simp [PlantDiseaseModel.predict, PlantDiseaseModel.predictTry, hmodel,
    validateImage_ok img hw hh hc, preprocessImage, hpix, hout]

/-- C1: for every loader state, in particular every loaded model, and every image input that is
not an `HTMLImageElement`, or has width below 32 or height below 32, or is not complete,
`predict` returns the default record (class `Unknown`, original class `Unknown`, confidence `0`,
no predictions, not confident) and makes no outside call at all: neither the preprocessing nor the
inference of the model is invoked, so the result is the same whatever the runtime would answer. -/
theorem predict_invalid_image_returns_default (self : PlantDiseaseModel) (rt : Runtime)
    (image : ImageInput)
    (hinvalid : image = .other ∨ ∃ img, image = .htmlImage img ∧
      (img.width < 32 ∨ img.height < 32 ∨ img.complete = false)) :
    self.predict rt image =
      ({ className := some "Unknown", originalClassName := some "Unknown", confidence := some 0,
         allPredictions := [], groupedPredictions := [], isConfident := false }, []) := by
  have hval : ∃ e, validateImage image = .error e := by
    rcases hinvalid with h | ⟨img, h, hbad⟩
    · exact ⟨_, by rw [h]; rfl⟩
    · subst h
      by_cases hsmall : img.width < 32 ∨ img.height < 32
      · exact ⟨"Image dimensions too small", by simp [validateImage, hsmall]⟩
      · have hc : img.complete = false := by
          rcases hbad with h | h | h
          · exact absurd (Or.inl h) hsmall
          · exact absurd (Or.inr h) hsmall
          · exact h
        exact ⟨"Image not fully loaded", by simp [validateImage, hsmall, hc]⟩
  obtain ⟨e, he⟩ := hval
  cases hm : self.model <;>
    simp [PlantDiseaseModel.predict, PlantDiseaseModel.predictTry, hm, he, defaultResult,
      unknownResult]

/-- A loaded model and a 31 pixel wide image: the default record, no outside call. -/
theorem predict_invalid_image_returns_default_witness :
    loadedModel.predict healthyRuntime (.htmlImage narrowPhoto) =
      ({ className := some "Unknown", originalClassName := some "Unknown", confidence := some 0,
         allPredictions := [], groupedPredictions := [], isConfident := false }, []) :=
  predict_invalid_image_returns_default loadedModel healthyRuntime (.htmlImage narrowPhoto)
    (Or.inr ⟨narrowPhoto, rfl, Or.inl (by decide)⟩)

theorem interpret_confident (v : List ℚ) (m : ℚ) (htop : topConfidence v = some m)
    (hge : 1 / 10 ≤ m) :
    interpret v =
      { className := (topPredictionIndex v).bind (fun i => CLASS_NAMES[i]?),
        originalClassName := (topPredictionIndex v).bind (fun i => ORIGINAL_CLASS_NAMES[i]?),
        confidence := some m,
        allPredictions := allPredictionsArray v,
        groupedPredictions := groupedPredictionsArray v,
        isConfident := true } := by
  have hb : belowThreshold (some m) = false := by
    simp only [belowThreshold, confidenceThreshold, decide_eq_false_iff_not]
    exact not_lt.mpr hge
  simp only [interpret, htop, hb, Bool.false_eq_true, if_false]

theorem interpret_unconfident (v : List ℚ) (m : ℚ) (htop : topConfidence v = some m)
    (hlt : m < 1 / 10) : interpret v = unknownResult (some m) := by
  have hb : belowThreshold (some m) = true := by
    simp only [belowThreshold, confidenceThreshold, decide_eq_true_eq]
    exact hlt
  simp only [interpret, htop, hb, if_true]

/-- C2: for a loaded model, a valid image (an `HTMLImageElement` at least 32 by 32 and complete)
that the runtime preprocesses, and an output vector `v` whose maximum entry `m` is below `0.1`,
`predict` returns class `Unknown`, original class `Unknown`, confidence `m`, empty
`allPredictions` and `groupedPredictions`, not confident; when `m` is exactly `0.1` the result is
confident with confidence `0.1`, so `0.1` is not below the threshold. -/
theorem predict_below_threshold_unknown (self : PlantDiseaseModel) (rt : Runtime)
    (img : HTMLImageElement) (model : LayersModel) (v : List ℚ) (m : ℚ)
    (hmodel : self.model = some model)
    (hw : 32 ≤ img.width) (hh : 32 ≤ img.height) (hc : img.complete = true)
    (hpix : rt.pixelsOk = true) (hout : rt.output = .ok v)
    (hmem : m ∈ v) (hmax : ∀ x ∈ v, x ≤ m) :
    (m < 1 / 10 →
      self.predict rt (.htmlImage img) =
        ({ className := some "Unknown", originalClassName := some "Unknown",
           confidence := some m, allPredictions := [], groupedPredictions := [],
           isConfident := false }, [.fromPixels, .modelPredict])) ∧
    (m = 1 / 10 →
      (self.predict rt (.htmlImage img)).1.isConfident = true ∧
      (self.predict rt (.htmlImage img)).1.confidence = some (1 / 10)) := by
  rw [predict_of_output self rt img model v hmodel hw hh hc hpix hout]
  have htop := topConfidence_eq_max v m hmem hmax
  constructor
  · intro hlt
    rw [interpret_unconfident v m htop hlt]
    rfl
  · intro heq
    rw [interpret_confident v m htop (le_of_eq heq.symm)]
    exact ⟨rfl, congrArg some heq⟩

/-- An output whose maximum is `0.09`: class `Unknown` with confidence `0.09`. -/
theorem predict_below_threshold_unknown_witness :
    loadedModel.predict ⟨true, .ok [1 / 100, 9 / 100, 9 / 100]⟩ (.htmlImage photo) =
      ({ className := some "Unknown", originalClassName := some "Unknown",
         confidence := some (9 / 100), allPredictions := [], groupedPredictions := [],
         isConfident := false }, [.fromPixels, .modelPredict]) :=
  (predict_below_threshold_unknown loadedModel ⟨true, .ok [1 / 100, 9 / 100, 9 / 100]⟩ photo
    sampleNetwork [1 / 100, 9 / 100, 9 / 100] (9 / 100) rfl (by decide) (by decide) rfl rfl rfl
    (by simp) (by intro x hx; simp at hx; rcases hx with h | h <;> (subst h; norm_num))).1
    (by norm_num)

/-! ### The sort and the grouping -/

theorem length_ten (v : List ℚ) (h : v.length = 10) :
    ∃ a0 a1 a2 a3 a4 a5 a6 a7 a8 a9, v = [a0, a1, a2, a3, a4, a5, a6, a7, a8, a9] := by
  match v, h with
  | [a0, a1, a2, a3, a4, a5, a6, a7, a8, a9], _ =>
    exact ⟨a0, a1, a2, a3, a4, a5, a6, a7, a8, a9, rfl⟩

theorem groupByMappedClass_ten (a0 a1 a2 a3 a4 a5 a6 a7 a8 a9 : ℚ) :
    groupByMappedClass [a0, a1, a2, a3, a4, a5, a6, a7, a8, a9] =
      [("Bacterial Spot", some a0), ("Early Blight", some a1), ("Late Blight", some a2),
       ("Leaf Mold", some a3), ("Yellow Leaf Curl Virus", some a4), ("Mosaic Virus", some a5),
       ("Target Spot", some a6), ("Spider Mites", some a7), ("Septoria Leaf Spot", some a8),
       ("Healthy", some a9)] := by
  simp [groupByMappedClass, List.enum, List.enumFrom, Grouped.addTo, mappedClassKey, CLASS_NAMES,
    uniqueInOrder, List.lookup, Grouped.assign]

/-- The sort puts the keys in descending order. -/
theorem jsSort_sorted {α : Type} (key : α → ℚ) (r : α → α → Prop) [DecidableRel r]
    (hr : ∀ a b, r a b ↔ key b ≤ key a) (l : List α) :
    List.Sorted (fun a b => key b ≤ key a) (jsSort r l) := by
  have htotal : IsTotal α r := ⟨fun a b => by
    rcases le_total (key a) (key b) with h | h
    · exact Or.inr ((hr b a).mpr h)
    · exact Or.inl ((hr a b).mpr h)⟩
  have htrans : IsTrans α r := ⟨fun a b c hab hbc =>
    (hr a c).mpr (le_trans ((hr b c).mp hbc) ((hr a b).mp hab))⟩
  exact (List.sorted_insertionSort r l).imp (fun h => (hr _ _).mp h)

theorem jsSort_perm {α : Type} (r : α → α → Prop) [DecidableRel r] (l : List α) :
    (jsSort r l).Perm l := List.perm_insertionSort r l

theorem filter_orderedInsert {α : Type} (key : α → ℚ) (r : α → α → Prop) [DecidableRel r]
    (hr : ∀ a b, r a b ↔ key b ≤ key a) (c : ℚ) (a : α) (l : List α) :
    (List.orderedInsert r a l).filter (fun x => decide (key x = c)) =
      (a :: l).filter (fun x => decide (key x = c)) := by
  induction l with
  | nil => rfl
  | cons b l ih =>
    by_cases hab : r a b
    · simp [List.orderedInsert, hab]
    · have hlt : key a < key b := not_le.mp (fun h => hab ((hr a b).mpr h))
      simp only [List.orderedInsert, hab, if_false]
      by_cases ha : key a = c
      · have hb : key b ≠ c := fun h => by rw [ha, h] at hlt; exact lt_irrefl _ hlt
        simp only [List.filter_cons, hb, ha, decide_True, decide_False, if_true] at ih ⊢
        simpa using ih
      · simp only [List.filter_cons, ha, decide_False] at ih ⊢
        simp [ih]

/-- The sort is stable: entries with the same key keep their order. -/
theorem jsSort_stable {α : Type} (key : α → ℚ) (r : α → α → Prop) [DecidableRel r]
    (hr : ∀ a b, r a b ↔ key b ≤ key a) (c : ℚ) (l : List α) :
    (jsSort r l).filter (fun x => decide (key x = c)) = l.filter (fun x => decide (key x = c)) := by
  induction l with
  | nil => rfl
  | cons a l ih =>
    simp only [jsSort, List.insertionSort] at ih ⊢
    rw [filter_orderedInsert key r hr c a, List.filter_cons, List.filter_cons, ih]

theorem classNotAfter_iff (a b : ClassPrediction) :
    ClassPrediction.notAfter a b ↔ b.confidence ≤ a.confidence := by
  unfold ClassPrediction.notAfter
  exact sub_nonpos

theorem map_fst_enum (v : List ℚ) : v.enum.map Prod.fst = List.range v.length := by
  simp [List.enum_map_fst]

/-! ### `predict`: the confident branch -/

theorem topPredictionIndex_eq (v : List ℚ) (m : ℚ) (i : Nat) (hi : v[i]? = some m)
    (hfirst : ∀ j, j < i → v[j]? ≠ some m) (hmax : ∀ x ∈ v, x ≤ m) :
    topPredictionIndex v = some i := by
  have hmem : m ∈ v := List.getElem?_mem hi
  simp [topPredictionIndex, mathMax_eq_some v m hmem hmax, indexOf_eq_some m v i hi hfirst]

theorem predict_top_class_aux (self : PlantDiseaseModel) (rt : Runtime)
    (img : HTMLImageElement) (model : LayersModel) (v : List ℚ) (m : ℚ) (i : Nat)
    (hmodel : self.model = some model)
    (hw : 32 ≤ img.width) (hh : 32 ≤ img.height) (hc : img.complete = true)
    (hpix : rt.pixelsOk = true) (hout : rt.output = .ok v)
    (hi : v[i]? = some m) (hfirst : ∀ j, j < i → v[j]? ≠ some m)
    (hmax : ∀ x ∈ v, x ≤ m) (hge : 1 / 10 ≤ m) :
    (self.predict rt (.htmlImage img)).1.isConfident = true ∧
    (self.predict rt (.htmlImage img)).1.confidence = some m ∧
    (self.predict rt (.htmlImage img)).1.className = CLASS_NAMES[i]? ∧
    (self.predict rt (.htmlImage img)).1.originalClassName = ORIGINAL_CLASS_NAMES[i]? := by
  have hmem : m ∈ v := List.getElem?_mem hi
  rw [predict_of_output self rt img model v hmodel hw hh hc hpix hout,
    interpret_confident v m (topConfidence_eq_max v m hmem hmax) hge,
    topPredictionIndex_eq v m i hi hfirst hmax]
  exact ⟨rfl, rfl, rfl, rfl⟩

theorem healthyOutput_first (j : Nat) (hj : j < 9) : healthyOutput[j]? ≠ some (11 / 20) := by
  unfold healthyOutput
  interval_cases j <;> norm_num

theorem healthyOutput_max (x : ℚ) (hx : x ∈ healthyOutput) : x ≤ 11 / 20 := by
  unfold healthyOutput at hx
  simp only [List.mem_cons, List.mem_singleton, List.not_mem_nil, or_false] at hx
  rcases hx with h | h | h | h | h | h | h | h | h | h <;> (subst h; norm_num)

/-- C3: for a loaded model, a valid image that the runtime preprocesses, and a 10-entry output
vector `v` whose maximum `m` is at least `0.1`, first attained at index `i`, `predict` returns a
confident result with confidence `m`, class `CLASS_NAMES[i]` and original class
`ORIGINAL_CLASS_NAMES[i]` (both defined); for the vector of nine `0.05` and `0.55` at the index of
`Healthy` the class is `Healthy`, the result is confident and the confidence is `0.55`. -/
theorem predict_confident_top_class (self : PlantDiseaseModel) (rt : Runtime)
    (img : HTMLImageElement) (model : LayersModel) (v : List ℚ) (m : ℚ) (i : Nat)
    (hmodel : self.model = some model)
    (hw : 32 ≤ img.width) (hh : 32 ≤ img.height) (hc : img.complete = true)
    (hpix : rt.pixelsOk = true) (hout : rt.output = .ok v) (hlen : v.length = 10)
    (hi : v[i]? = some m) (hfirst : ∀ j, j < i → v[j]? ≠ some m)
    (hmax : ∀ x ∈ v, x ≤ m) (hge : 1 / 10 ≤ m) :
    ((self.predict rt (.htmlImage img)).1.isConfident = true ∧
     (self.predict rt (.htmlImage img)).1.confidence = some m ∧
     (self.predict rt (.htmlImage img)).1.className = CLASS_NAMES[i]? ∧
     (self.predict rt (.htmlImage img)).1.originalClassName = ORIGINAL_CLASS_NAMES[i]? ∧
     (∃ name original, CLASS_NAMES[i]? = some name ∧ ORIGINAL_CLASS_NAMES[i]? = some original)) ∧
    (∀ rt2 : Runtime, rt2.pixelsOk = true →
      rt2.output = .ok [1 / 20, 1 / 20, 1 / 20, 1 / 20, 1 / 20, 1 / 20, 1 / 20, 1 / 20, 1 / 20,
        11 / 20] →
      (self.predict rt2 (.htmlImage img)).1.className = some "Healthy" ∧
      (self.predict rt2 (.htmlImage img)).1.isConfident = true ∧
      (self.predict rt2 (.htmlImage img)).1.confidence = some (11 / 20)) := by
  constructor
  · obtain ⟨h1, h2, h3, h4⟩ :=
      predict_top_class_aux self rt img model v m i hmodel hw hh hc hpix hout hi hfirst hmax hge
    refine ⟨h1, h2, h3, h4, ?_⟩
    have hlt : i < 10 := by
      have := (List.getElem?_eq_some_iff.mp hi).1
      omega
    have h1 : i < CLASS_NAMES.length := by simpa [CLASS_NAMES] using hlt
    have h2 : i < ORIGINAL_CLASS_NAMES.length := by simpa [ORIGINAL_CLASS_NAMES] using hlt
    exact ⟨CLASS_NAMES[i], ORIGINAL_CLASS_NAMES[i], List.getElem?_eq_getElem h1,
      List.getElem?_eq_getElem h2⟩
  · intro rt2 hpix2 hout2
    obtain ⟨h1, h2, h3, _⟩ :=
      predict_top_class_aux self rt2 img model _ (11 / 20) 9 hmodel hw hh hc hpix2 hout2 rfl
        healthyOutput_first healthyOutput_max (by norm_num)
    exact ⟨h3, h1, h2⟩

/-- The example of the specification: class `Healthy`, confident, confidence `0.55`. -/
theorem predict_confident_top_class_witness :
    (loadedModel.predict healthyRuntime (.htmlImage photo)).1.className = some "Healthy" ∧
    (loadedModel.predict healthyRuntime (.htmlImage photo)).1.originalClassName =
      some "Healthy" ∧
    (loadedModel.predict healthyRuntime (.htmlImage photo)).1.isConfident = true ∧
    (loadedModel.predict healthyRuntime (.htmlImage photo)).1.confidence = some (11 / 20) :=
  have h := predict_confident_top_class loadedModel healthyRuntime photo sampleNetwork
    healthyOutput (11 / 20) 9 rfl (by decide) (by decide) rfl rfl rfl rfl rfl
    healthyOutput_first healthyOutput_max (by norm_num)
  ⟨h.1.2.2.1, h.1.2.2.2.1, h.1.1, h.1.2.1⟩

/-! ### `allPredictions` -/

theorem predict_cases (self : PlantDiseaseModel) (rt : Runtime) (image : ImageInput) :
    (self.predict rt image).1 = defaultResult ∨
      ∃ v, rt.output = .ok v ∧ (self.predict rt image).1 = interpret v := by
  unfold PlantDiseaseModel.predict PlantDiseaseModel.predictTry
  cases self.model with
  | none => exact Or.inl rfl
  | some model =>
    cases validateImage image with
    | error e => exact Or.inl rfl
    | ok b =>
      cases preprocessImage rt with
      | none => exact Or.inl rfl
      | some t =>
        cases hout : rt.output with
        | error e => left; simp [hout]
        | ok v => right; exact ⟨v, rfl, by simp [hout]⟩

theorem interpret_cases (v : List ℚ) :
    interpret v = unknownResult (topConfidence v) ∨
      ((interpret v).isConfident = true ∧ (interpret v).allPredictions = allPredictionsArray v ∧
        (interpret v).groupedPredictions = groupedPredictionsArray v) := by
  cases hb : belowThreshold (topConfidence v) with
  | true => exact Or.inl (by simp only [interpret, hb, if_true])
  | false =>
    refine Or.inr ?_
    simp only [interpret, hb, Bool.false_eq_true, if_false, and_self]

theorem allPredictionsArray_sorted (v : List ℚ) :
    List.Sorted (fun a b : ClassPrediction => b.confidence ≤ a.confidence)
      (allPredictionsArray v) :=
  jsSort_sorted ClassPrediction.confidence ClassPrediction.notAfter classNotAfter_iff _

theorem allPredictionsArray_names (v : List ℚ) (hlen : v.length = 10) :
    ((allPredictionsArray v).map (fun p => p.className)).Perm (CLASS_NAMES.map some) := by
  have hperm := (jsSort_perm ClassPrediction.notAfter
    (v.enum.map (fun entry =>
      ({ className := CLASS_NAMES[entry.1]?,
         originalClassName := ORIGINAL_CLASS_NAMES[entry.1]?,
         confidence := entry.2 } : ClassPrediction)))).map (fun p => p.className)
  refine hperm.trans (List.Perm.of_eq ?_)
  rw [List.map_map]
  have : ((fun p : ClassPrediction => p.className) ∘ fun entry : ℕ × ℚ =>
      ({ className := CLASS_NAMES[entry.1]?,
         originalClassName := ORIGINAL_CLASS_NAMES[entry.1]?,
         confidence := entry.2 } : ClassPrediction)) = (fun i => CLASS_NAMES[i]?) ∘ Prod.fst := rfl
  rw [this, ← List.map_map, map_fst_enum, hlen]
  decide

/-- C4 (amended): for every loader state, input and answer of the runtime, `allPredictions` of
the record returned by `predict` is sorted in descending order of confidence; it is empty
whenever the record is not confident (rejected input, failed inference, maximum below `0.1`);
and whenever the record is confident and the output vector has ten entries, its class names are
a permutation of the ten fixed class names. -/
theorem allPredictions_sorted_permutation_when_confident (self : PlantDiseaseModel)
    (rt : Runtime) (image : ImageInput) :
    List.Sorted (fun a b : ClassPrediction => b.confidence ≤ a.confidence)
      (self.predict rt image).1.allPredictions ∧
    ((self.predict rt image).1.isConfident = false →
      (self.predict rt image).1.allPredictions = []) ∧
    (∀ v, rt.output = .ok v → v.length = 10 → (self.predict rt image).1.isConfident = true →
      ((self.predict rt image).1.allPredictions.map (fun p => p.className)).Perm
        (CLASS_NAMES.map some)) := by
  rcases predict_cases self rt image with h | ⟨w, hw, h⟩
  · rw [h]
    refine ⟨List.sorted_nil, fun _ => rfl, ?_⟩
    intro v _ _ hconf
    exact absurd hconf (by decide)
  · rw [h]
    rcases interpret_cases w with hu | ⟨hconf, hall, _⟩
    · rw [hu]
      refine ⟨List.sorted_nil, fun _ => rfl, ?_⟩
      intro v _ _ hconf
      exact absurd hconf (by simp [unknownResult])
    · rw [hall]
      refine ⟨allPredictionsArray_sorted w, ?_, ?_⟩
      · intro hfalse
        rw [hconf] at hfalse
        exact absurd hfalse (by decide)
      · intro v hv hlen _
        rw [hw] at hv
        cases hv
        exact allPredictionsArray_names w hlen

/-- The example of the specification: sorted, and the ten class names. -/
theorem allPredictions_sorted_permutation_when_confident_witness :
    List.Sorted (fun a b : ClassPrediction => b.confidence ≤ a.confidence)
      (loadedModel.predict healthyRuntime (.htmlImage photo)).1.allPredictions ∧
    ((loadedModel.predict healthyRuntime (.htmlImage photo)).1.allPredictions.map
      (fun p => p.className)).Perm (CLASS_NAMES.map some) :=
  have h := allPredictions_sorted_permutation_when_confident loadedModel healthyRuntime
    (.htmlImage photo)
  ⟨h.1, h.2.2 healthyOutput rfl rfl
    (predict_top_class_aux loadedModel healthyRuntime photo sampleNetwork healthyOutput (11 / 20)
      9 rfl (by decide) (by decide) rfl rfl rfl rfl healthyOutput_first healthyOutput_max
      (by norm_num)).1⟩

/-- C4 (as stated, refuted): for a loaded model, the output of the example and a fully loaded
image that is 31 pixels wide, `allPredictions` is empty, so its class names are not a permutation
of the ten fixed class names. -/
theorem allPredictions_not_permutation_for_small_image :
    (loadedModel.predict healthyRuntime (.htmlImage narrowPhoto)).1.allPredictions = [] ∧
    ¬ ((loadedModel.predict healthyRuntime (.htmlImage narrowPhoto)).1.allPredictions.map
        (fun p => p.className)).Perm (CLASS_NAMES.map some) := by
  have hempty :
      (loadedModel.predict healthyRuntime (.htmlImage narrowPhoto)).1.allPredictions = [] := rfl
  rw [hempty]
  refine ⟨rfl, ?_⟩
  intro h
  have := h.length_eq
  simp [CLASS_NAMES] at this

/-! ### `groupedPredictions` -/

theorem allPredictionsArray_eq (v : List ℚ) :
    allPredictionsArray v = jsSort ClassPrediction.notAfter (classEntries v) := rfl

theorem classEntries_ten (a0 a1 a2 a3 a4 a5 a6 a7 a8 a9 : ℚ) :
    classEntries [a0, a1, a2, a3, a4, a5, a6, a7, a8, a9] =
      [⟨some "Bacterial Spot", some "Bacterial_spot", a0⟩,
       ⟨some "Early Blight", some "Early_blight", a1⟩,
       ⟨some "Late Blight", some "Late_blight", a2⟩,
       ⟨some "Leaf Mold", some "Leaf_mold", a3⟩,
       ⟨some "Yellow Leaf Curl Virus", some "Yellow_leaf_curl_virus", a4⟩,
       ⟨some "Mosaic Virus", some "Mosaic_virus", a5⟩,
       ⟨some "Target Spot", some "Target_spot", a6⟩,
       ⟨some "Spider Mites", some "Spider_mites", a7⟩,
       ⟨some "Septoria Leaf Spot", some "Septoria_leaf_spot", a8⟩,
       ⟨some "Healthy", some "Healthy", a9⟩] := by
  simp [classEntries, List.enum, List.enumFrom, CLASS_NAMES, ORIGINAL_CLASS_NAMES]

theorem grouped_entries_eq (v : List ℚ) (hlen : v.length = 10) :
    (groupByMappedClass v).map
        (fun entry => ({ className := entry.1, confidence := entry.2 } : GroupedPrediction)) =
      (classEntries v).map dropOriginal ∧
    (classEntries v).map dropOriginal =
      List.zipWith (fun name c => ({ className := name, confidence := some c } : GroupedPrediction))
        CLASS_NAMES v ∧
    ∀ p ∈ classEntries v, some (interpolate p.className) = p.className := by
  obtain ⟨a0, a1, a2, a3, a4, a5, a6, a7, a8, a9, rfl⟩ := length_ten v hlen
  rw [groupByMappedClass_ten, classEntries_ten]
  refine ⟨by simp [dropOriginal, interpolate], by simp [dropOriginal, interpolate, CLASS_NAMES], ?_⟩
  intro p hp
  simp only [List.mem_cons, List.mem_singleton, List.not_mem_nil, or_false] at hp
  rcases hp with h | h | h | h | h | h | h | h | h | h <;> (subst h; rfl)

theorem groupedNotAfter_dropOriginal (a b : ClassPrediction) :
    ClassPrediction.notAfter a b ↔ GroupedPrediction.notAfter (dropOriginal a) (dropOriginal b) :=
  Iff.rfl

theorem groupedPredictionsArray_eq_map (v : List ℚ) (hlen : v.length = 10) :
    groupedPredictionsArray v = (allPredictionsArray v).map dropOriginal := by
  unfold groupedPredictionsArray
  rw [(grouped_entries_eq v hlen).1, allPredictionsArray_eq]
  exact (List.map_insertionSort ClassPrediction.notAfter GroupedPrediction.notAfter dropOriginal
    (classEntries v) (fun a _ b _ => groupedNotAfter_dropOriginal a b)).symm

/-- C10: for a loaded model, a valid image that the runtime preprocesses, and a 10-entry output
vector `v` whose maximum is at least `0.1`, `groupedPredictions` is the stable descending sort of
the ten pairs `(CLASS_NAMES[i], v[i])`: it is a permutation of these pairs (each display class
once, with its own raw confidence), it is sorted in descending order of confidence, entries of
equal confidence keep the order of the pairs, its class names are a permutation of `CLASS_NAMES`,
and entry for entry it is `allPredictions` without `originalClassName`. -/
theorem groupedPredictions_is_stable_sort_of_pairs (self : PlantDiseaseModel) (rt : Runtime)
    (img : HTMLImageElement) (model : LayersModel) (v : List ℚ) (m : ℚ)
    (hmodel : self.model = some model)
    (hw : 32 ≤ img.width) (hh : 32 ≤ img.height) (hc : img.complete = true)
    (hpix : rt.pixelsOk = true) (hout : rt.output = .ok v) (hlen : v.length = 10)
    (hmem : m ∈ v) (hmax : ∀ x ∈ v, x ≤ m) (hge : 1 / 10 ≤ m) :
    (self.predict rt (.htmlImage img)).1.groupedPredictions.Perm
      (List.zipWith (fun name c => ({ className := name, confidence := some c } : GroupedPrediction))
        CLASS_NAMES v) ∧
    List.Sorted
      (fun a b : GroupedPrediction =>
        ∃ x y, a.confidence = some x ∧ b.confidence = some y ∧ y ≤ x)
      (self.predict rt (.htmlImage img)).1.groupedPredictions ∧
    (∀ c : ℚ,
      (self.predict rt (.htmlImage img)).1.groupedPredictions.filter
          (fun g => decide (g.confidence = some c)) =
        (List.zipWith
          (fun name c => ({ className := name, confidence := some c } : GroupedPrediction))
          CLASS_NAMES v).filter (fun g => decide (g.confidence = some c))) ∧
    ((self.predict rt (.htmlImage img)).1.groupedPredictions.map (fun g => g.className)).Perm
      CLASS_NAMES ∧
    (self.predict rt (.htmlImage img)).1.groupedPredictions.map
        (fun g => (some g.className, g.confidence)) =
      (self.predict rt (.htmlImage img)).1.allPredictions.map
        (fun p => (p.className, some p.confidence)) := by
  rw [predict_of_output self rt img model v hmodel hw hh hc hpix hout,
    interpret_confident v m (topConfidence_eq_max v m hmem hmax) hge]
  simp only
  obtain ⟨_, hzip, hname⟩ := grouped_entries_eq v hlen
  have hg := groupedPredictionsArray_eq_map v hlen
  have hperm : (groupedPredictionsArray v).Perm
      (List.zipWith
        (fun name c => ({ className := name, confidence := some c } : GroupedPrediction))
        CLASS_NAMES v) := by
    rw [hg, ← hzip, allPredictionsArray_eq]
    exact (jsSort_perm _ _).map _
  refine ⟨hperm, ?_, ?_, ?_, ?_⟩
  · rw [hg]
    refine List.pairwise_map.mpr ((allPredictionsArray_sorted v).imp ?_)
    intro a b hab
    exact ⟨a.confidence, b.confidence, rfl, rfl, hab⟩
  · intro c
    rw [hg, ← hzip, List.filter_map, List.filter_map, allPredictionsArray_eq]
    congr 1
    have := jsSort_stable ClassPrediction.confidence ClassPrediction.notAfter classNotAfter_iff c
      (classEntries v)
    simpa [Function.comp_def, dropOriginal] using this
  · refine (hperm.map (fun g => g.className)).trans (List.Perm.of_eq ?_)
    obtain ⟨a0, a1, a2, a3, a4, a5, a6, a7, a8, a9, rfl⟩ := length_ten v hlen
    simp [CLASS_NAMES]
  · rw [hg, List.map_map]
    apply List.map_congr_left
    intro p hp
    have hp2 : p ∈ classEntries v := (jsSort_perm _ _).mem_iff.mp (allPredictionsArray_eq v ▸ hp)
    simp only [Function.comp, dropOriginal, hname p hp2]

/-- The example of the specification: the ten display classes, entry for entry as in
`allPredictions`. -/
theorem groupedPredictions_is_stable_sort_of_pairs_witness :
    ((loadedModel.predict healthyRuntime (.htmlImage photo)).1.groupedPredictions.map
      (fun g => g.className)).Perm CLASS_NAMES ∧
    (loadedModel.predict healthyRuntime (.htmlImage photo)).1.groupedPredictions.map
        (fun g => (some g.className, g.confidence)) =
      (loadedModel.predict healthyRuntime (.htmlImage photo)).1.allPredictions.map
        (fun p => (p.className, some p.confidence)) :=
  have h := groupedPredictions_is_stable_sort_of_pairs loadedModel healthyRuntime photo
    sampleNetwork healthyOutput (11 / 20) rfl (by decide) (by decide) rfl rfl rfl rfl
    (by simp [healthyOutput]) healthyOutput_max (by norm_num)
  ⟨h.2.2.2.1, h.2.2.2.2⟩

/-! ### The simulator -/

theorem diseaseClasses_eq : diseaseClasses =
    ["Healthy", "Bacterial Spot", "Early Blight", "Late Blight", "Leaf Mold",
     "Yellow Leaf Curl Virus", "Mosaic Virus", "Target Spot", "Spider Mites",
     "Septoria Leaf Spot"] := by decide

theorem randomIndex_range (random : Nat → ℚ) (h0 : 0 ≤ random 0) (h1 : random 0 < 1) :
    0 ≤ randomIndex random ∧ randomIndex random < 10 := by
  unfold randomIndex
  rw [diseaseClasses_eq]
  constructor
  · apply Int.floor_nonneg.mpr
    simp only [List.length_cons, List.length_nil]
    norm_num
    exact h0
  · rw [Int.floor_lt]
    simp only [List.length_cons, List.length_nil]
    norm_num
    linarith

theorem simulatedClassName_mem (random : Nat → ℚ) (h0 : 0 ≤ random 0) (h1 : random 0 < 1) :
    ∃ name, simulatedClassName random = some name ∧ name ∈ diseaseClasses := by
  obtain ⟨hlo, hhi⟩ := randomIndex_range random h0 h1
  have hlen : (randomIndex random).toNat < diseaseClasses.length := by
    rw [diseaseClasses_eq]
    simp only [List.length_cons, List.length_nil]
    omega
  refine ⟨diseaseClasses[(randomIndex random).toNat], ?_, List.getElem_mem _⟩
  simp only [simulatedClassName, not_lt.mpr hlo, if_false]
  exact List.getElem?_eq_getElem hlen

theorem mem_diseaseClasses (name : String) (h : name ∈ diseaseClasses) :
    name ∈ diseaseInfo.map Prod.fst ∧ name ≠ "Unknown" := by
  unfold diseaseClasses at h
  have := List.mem_filter.mp h
  exact ⟨this.1, by simpa using this.2⟩

/-! ### `diagnosePlant`, case by case -/

theorem diagnosePlant_other (self : PlantDiseaseService) (rt : ServiceRuntime) :
    self.diagnosePlant rt .other =
      (errorDiagnosis "Input harus berupa File atau HTMLImageElement", (self.ensureModel rt).1,
        (self.ensureModel rt).2) := rfl

theorem diagnosePlant_file_error (self : PlantDiseaseService) (rt : ServiceRuntime)
    (message : String) (h : _createImageFromFile rt.imageLoad = .error message) :
    self.diagnosePlant rt .file =
      (errorDiagnosis message, (self.ensureModel rt).1,
        (self.ensureModel rt).2 ++ [.createImageFromFile]) := by
  simp [PlantDiseaseService.diagnosePlant, PlantDiseaseService.diagnoseTry, h]

theorem diagnosePlant_file_ok (self : PlantDiseaseService) (rt : ServiceRuntime)
    (img : HTMLImageElement) (h : rt.imageLoad = .onload img) :
    self.diagnosePlant rt .file =
      ((self.diagnosePlant rt (.image img)).1, (self.diagnosePlant rt (.image img)).2.1,
        (self.ensureModel rt).2 ++ [.createImageFromFile] ++
          ((self.ensureModel rt).1.choosePrediction rt img).2) := by
  simp only [PlantDiseaseService.diagnosePlant, PlantDiseaseService.diagnoseTry, h,
    _createImageFromFile]
  cases ((self.ensureModel rt).1.choosePrediction rt img).1 <;> rfl

theorem diagnosePlant_image_simulated (self : PlantDiseaseService) (rt : ServiceRuntime)
    (img : HTMLImageElement) (h : (self.ensureModel rt).1.simulationMode = true) :
    self.diagnosePlant rt (.image img) =
      (withDiseaseInfo (_getSimulatedPrediction rt.random), (self.ensureModel rt).1,
        (self.ensureModel rt).2 ++ [.simulatedPrediction]) := by
  simp [PlantDiseaseService.diagnosePlant, PlantDiseaseService.diagnoseTry,
    PlantDiseaseService.choosePrediction, h]

theorem diagnosePlant_image_model (self : PlantDiseaseService) (rt : ServiceRuntime)
    (img : HTMLImageElement) (h : (self.ensureModel rt).1.simulationMode = false) :
    self.diagnosePlant rt (.image img) =
      ((match rt.predict (.htmlImage img) with
        | .ok prediction => withDiseaseInfo prediction
        | .error message => errorDiagnosis message), (self.ensureModel rt).1,
        (self.ensureModel rt).2 ++ [.modelPredict]) := by
  simp only [PlantDiseaseService.diagnosePlant, PlantDiseaseService.diagnoseTry,
    PlantDiseaseService.choosePrediction, h]
  cases rt.predict (.htmlImage img) <;> simp

theorem choosePrediction_calls (self : PlantDiseaseService) (rt : ServiceRuntime)
    (img : HTMLImageElement) :
    (self.choosePrediction rt img).2 =
      if self.simulationMode then [.simulatedPrediction] else [.modelPredict] := by
  unfold PlantDiseaseService.choosePrediction
  cases self.simulationMode <;> rfl

theorem ensureModel_calls (self : PlantDiseaseService) (rt : ServiceRuntime) :
    (self.ensureModel rt).2 = [] ∨ (self.ensureModel rt).2 = [.loadModel] := by
  unfold PlantDiseaseService.ensureModel PlantDiseaseService.initModel
  cases self.isModelLoaded with
  | true => left; rfl
  | false =>
    right
    rcases rt.loadModel with _ | b
    · rfl
    · cases b <;> rfl

/-- In simulation mode with a failing load attempt the mode is kept. -/
theorem ensureModel_simulation (self : PlantDiseaseService) (rt : ServiceRuntime)
    (hnot : self.isModelLoaded = false) (hfail : loadFailed rt.loadModel = true) :
    (self.ensureModel rt).1.simulationMode = true ∧
      (self.ensureModel rt).1.isModelLoaded = false := by
  unfold PlantDiseaseService.ensureModel PlantDiseaseService.initModel
  rw [hnot]
  rcases hl : rt.loadModel with _ | b
  · simp [hnot]
  · cases b
    · simp [hnot]
    · rw [hl] at hfail; simp [loadFailed] at hfail

theorem initModel_failed (self : PlantDiseaseService) (loadModel : Except String Bool)
    (hnot : self.isModelLoaded = false) (hfail : loadFailed loadModel = true) :
    (self.initModel loadModel).1 = false ∧ (self.initModel loadModel).2.1.simulationMode = true ∧
      (self.initModel loadModel).2.1.isModelLoaded = false := by
  unfold PlantDiseaseService.initModel
  rw [hnot]
  rcases loadModel with _ | b
  · simp [hnot]
  · cases b
    · simp [hnot]
    · simp [loadFailed] at hfail

theorem step_keeps_simulation (self : PlantDiseaseService) (op : ServiceOp)
    (hnot : self.isModelLoaded = false)
    (hfail : op.loadFailed = true) :
    (self.step op).simulationMode = true ∧ (self.step op).isModelLoaded = false := by
  cases op with
  | initModel loadModel =>
    have := initModel_failed self loadModel hnot hfail
    exact ⟨this.2.1, this.2.2⟩
  | diagnosePlant rt input =>
    have hstate : (self.diagnosePlant rt input).2.1 = (self.ensureModel rt).1 := by
      cases input with
      | other => rfl
      | image img =>
        cases hs : (self.ensureModel rt).1.simulationMode
        · rw [diagnosePlant_image_model self rt img hs]
        · rw [diagnosePlant_image_simulated self rt img hs]
      | file =>
        cases hl : rt.imageLoad with
        | onload img =>
          rw [diagnosePlant_file_ok self rt img hl]
          cases hs : (self.ensureModel rt).1.simulationMode
          · rw [diagnosePlant_image_model self rt img hs]
          · rw [diagnosePlant_image_simulated self rt img hs]
        | onerror =>
          rw [diagnosePlant_file_error self rt "Gagal memuat gambar" (by rw [hl]; rfl)]
        | raised message =>
          rw [diagnosePlant_file_error self rt message (by rw [hl]; rfl)]
    simp only [PlantDiseaseService.step, hstate]
    exact ensureModel_simulation self rt hnot hfail

theorem run_keeps_simulation (self : PlantDiseaseService) (ops : List ServiceOp)
    (hsim : self.simulationMode = true) (hnot : self.isModelLoaded = false)
    (hfail : ∀ op ∈ ops, op.loadFailed = true) :
    (self.run ops).simulationMode = true ∧ (self.run ops).isModelLoaded = false := by
  induction ops generalizing self with
  | nil => exact ⟨hsim, hnot⟩
  | cons op ops ih =>
    have hstep := step_keeps_simulation self op hnot (hfail op (List.mem_cons_self _ _))
    simp only [PlantDiseaseService.run, List.foldl_cons]
    exact ih (self.step op) hstep.1 hstep.2 (fun o ho => hfail o (List.mem_cons_of_mem _ ho))

/-! ### Simulated results -/

theorem simulated_className (random : Nat → ℚ) (h0 : 0 ≤ random 0) (h1 : random 0 < 1) :
    ∃ name, (_getSimulatedPrediction random).className = some name ∧
      name ∈ diseaseInfo.map Prod.fst ∧ name ≠ "Unknown" := by
  obtain ⟨name, hname, hmem⟩ := simulatedClassName_mem random h0 h1
  exact ⟨name, hname, mem_diseaseClasses name hmem⟩

/-- Whenever the simulator was called, the returned record is the simulated prediction with its
disease information. -/
theorem diagnosePlant_of_simulated (self : PlantDiseaseService) (rt : ServiceRuntime)
    (input : DiagnoseInput)
    (hcall : ServiceCall.simulatedPrediction ∈ (self.diagnosePlant rt input).2.2) :
    (self.diagnosePlant rt input).1 = withDiseaseInfo (_getSimulatedPrediction rt.random) := by
  have hens : ServiceCall.simulatedPrediction ∉ (self.ensureModel rt).2 := by
    rcases ensureModel_calls self rt with h | h <;> rw [h] <;> simp
  have himage : ∀ img, ServiceCall.simulatedPrediction ∈
      ((self.ensureModel rt).1.choosePrediction rt img).2 →
      (self.diagnosePlant rt (.image img)).1 =
        withDiseaseInfo (_getSimulatedPrediction rt.random) := by
    intro img hmem
    rw [choosePrediction_calls] at hmem
    cases hs : (self.ensureModel rt).1.simulationMode
    · rw [hs] at hmem; simp at hmem
    · rw [diagnosePlant_image_simulated self rt img hs]
  cases input with
  | other => rw [diagnosePlant_other] at hcall; exact absurd hcall hens
  | image img =>
    apply himage img
    cases hs : (self.ensureModel rt).1.simulationMode
    · rw [diagnosePlant_image_model self rt img hs] at hcall
      simp [hens] at hcall
    · rw [choosePrediction_calls, hs]; simp
  | file =>
    cases hl : rt.imageLoad with
    | onload img =>
      rw [diagnosePlant_file_ok self rt img hl] at hcall ⊢
      apply himage img
      simpa [hens] using hcall
    | onerror =>
      rw [diagnosePlant_file_error self rt "Gagal memuat gambar" (by rw [hl]; rfl)] at hcall
      simp [hens] at hcall
    | raised message =>
      rw [diagnosePlant_file_error self rt message (by rw [hl]; rfl)] at hcall
      simp [hens] at hcall

/-- C5: for every sequence of random draws whose first draw lies in `[0, 1)` (the second draw
only sets the confidence), the index `floor(r * 10)` lies within the ten classes, the simulated
prediction is confident and its class is a key of the disease table other than `Unknown`; hence
whenever `diagnosePlant` produced its result with the simulator, the result is confident and its
class is neither `Unknown` nor missing. -/
theorem simulated_prediction_confident_not_unknown (random : Nat → ℚ)
    (h0 : 0 ≤ random 0) (h1 : random 0 < 1) :
    (diseaseClasses.length = 10 ∧ 0 ≤ randomIndex random ∧ randomIndex random < 10) ∧
    (_getSimulatedPrediction random).isConfident = true ∧
    (∃ name, (_getSimulatedPrediction random).className = some name ∧
      name ∈ diseaseInfo.map Prod.fst ∧ name ≠ "Unknown") ∧
    (∀ (self : PlantDiseaseService) (rt : ServiceRuntime) (input : DiagnoseInput),
      rt.random = random →
      ServiceCall.simulatedPrediction ∈ (self.diagnosePlant rt input).2.2 →
      (self.diagnosePlant rt input).1.isConfident = true ∧
      (self.diagnosePlant rt input).1.className ≠ some "Unknown" ∧
      (self.diagnosePlant rt input).1.className ≠ none) := by
  refine ⟨⟨by rw [diseaseClasses_eq]; rfl, randomIndex_range random h0 h1⟩, rfl,
    simulated_className random h0 h1, ?_⟩
  intro self rt input hr hcall
  rw [diagnosePlant_of_simulated self rt input hcall, hr]
  obtain ⟨name, hname, _, hne⟩ := simulated_className random h0 h1
  refine ⟨rfl, ?_, ?_⟩
  · show (_getSimulatedPrediction random).className ≠ some "Unknown"
    rw [hname]
    exact fun h => hne (Option.some.inj h)
  · show (_getSimulatedPrediction random).className ≠ none
    rw [hname]
    exact Option.some_ne_none _

/-- A fresh service whose loader returns `false`, an image, draws all equal to `0.7`: the
simulator is called and the result is confident with a class other than `Unknown`. -/
theorem simulated_prediction_confident_not_unknown_witness :
    ServiceCall.simulatedPrediction ∈
      (PlantDiseaseService.new.diagnosePlant failingService (.image photo)).2.2 ∧
    (_getSimulatedPrediction steadyRandom).isConfident = true ∧
    (PlantDiseaseService.new.diagnosePlant failingService (.image photo)).1.isConfident = true ∧
    (PlantDiseaseService.new.diagnosePlant failingService (.image photo)).1.className ≠
      some "Unknown" :=
  have hcall : ServiceCall.simulatedPrediction ∈
      (PlantDiseaseService.new.diagnosePlant failingService (.image photo)).2.2 :=
    List.mem_cons_of_mem _ (List.mem_singleton.mpr rfl)
  have h := simulated_prediction_confident_not_unknown steadyRandom
    (by norm_num [steadyRandom]) (by norm_num [steadyRandom])
  have hd := h.2.2.2 PlantDiseaseService.new failingService (.image photo) rfl hcall
  ⟨hcall, h.2.1, hd.1, hd.2.1⟩

/-! ### Simulation mode over time; failures of `diagnosePlant` -/

/-- C6 (as stated, refuted): on a fresh service `initModel` fails when the loader returns `false`
and simulation mode is on; a later `initModel` whose loader returns `true` switches simulation
mode off, and the next `diagnosePlant` on an image calls the `predict` of the model and not the
simulator.  Besides, in simulation mode a `File` that does not decode gets the `Unknown` record
with the error message, not a simulated prediction. -/
theorem simulation_mode_left_when_later_load_succeeds :
    ((PlantDiseaseService.new.initModel (.ok false)).1 = false ∧
      (PlantDiseaseService.new.initModel (.ok false)).2.1.simulationMode = true) ∧
    (((PlantDiseaseService.new.initModel (.ok false)).2.1.run
        [.initModel (.ok true)]).simulationMode = false ∧
      (((PlantDiseaseService.new.initModel (.ok false)).2.1.run
        [.initModel (.ok true)]).diagnosePlant workingService (.image photo)).2.2 =
        [.modelPredict]) ∧
    ((PlantDiseaseService.new.initModel (.ok false)).2.1.diagnosePlant failingService .file).1 =
      errorDiagnosis "Gagal memuat gambar" := by
  refine ⟨⟨rfl, rfl⟩, ⟨rfl, rfl⟩, rfl⟩

/-- C6 (amended): once `initModel` has failed on a service instance (the model was not loaded
and the loader returned `false` or raised), then after any further sequence of `initModel` and
`diagnosePlant` calls in which every load attempt fails again, `simulationMode` is still true and
`isModelLoaded` still false; a following `diagnosePlant` whose load attempt fails too keeps
simulation mode, never calls the `predict` of the model, and on an image, or on a `File` that
decodes to an image, returns the simulated prediction with its disease information. -/
theorem simulation_mode_kept_while_load_fails (self : PlantDiseaseService)
    (first : Except String Bool) (ops : List ServiceOp) (rt : ServiceRuntime)
    (input : DiagnoseInput)
    (hnot : self.isModelLoaded = false) (hfirst : loadFailed first = true)
    (hops : ∀ op ∈ ops, op.loadFailed = true) (hrt : loadFailed rt.loadModel = true) :
    (self.initModel first).1 = false ∧
    (((self.initModel first).2.1.run ops).simulationMode = true ∧
      ((self.initModel first).2.1.run ops).isModelLoaded = false) ∧
    (((self.initModel first).2.1.run ops).diagnosePlant rt input).2.1.simulationMode = true ∧
    ServiceCall.modelPredict ∉ (((self.initModel first).2.1.run ops).diagnosePlant rt input).2.2 ∧
    (∀ img, input = .image img ∨ (input = .file ∧ rt.imageLoad = .onload img) →
      (((self.initModel first).2.1.run ops).diagnosePlant rt input).1 =
        withDiseaseInfo (_getSimulatedPrediction rt.random)) := by
  obtain ⟨hret, hsim1, hnot1⟩ := initModel_failed self first hnot hfirst
  have hrun := run_keeps_simulation (self.initModel first).2.1 ops hsim1 hnot1 hops
  generalize (self.initModel first).2.1.run ops = s at hrun ⊢
  have hens := ensureModel_simulation s rt hrun.2 hrt
  have hcalls : ServiceCall.modelPredict ∉ (s.ensureModel rt).2 := by
    rcases ensureModel_calls s rt with h | h <;> rw [h] <;> simp
  have himg : ∀ img, s.diagnosePlant rt (.image img) =
      (withDiseaseInfo (_getSimulatedPrediction rt.random), (s.ensureModel rt).1,
        (s.ensureModel rt).2 ++ [.simulatedPrediction]) :=
    fun img => diagnosePlant_image_simulated s rt img hens.1
  have hstate : (s.diagnosePlant rt input).2.1 = (s.ensureModel rt).1 ∧
      ServiceCall.modelPredict ∉ (s.diagnosePlant rt input).2.2 := by
    cases input with
    | other => rw [diagnosePlant_other]; exact ⟨rfl, hcalls⟩
    | image img => rw [himg img]; exact ⟨rfl, by simp [hcalls]⟩
    | file =>
      cases hl : rt.imageLoad with
      | onload img =>
        rw [diagnosePlant_file_ok s rt img hl, himg img, choosePrediction_calls, hens.1]
        exact ⟨rfl, by simp [hcalls]⟩
      | onerror =>
        rw [diagnosePlant_file_error s rt "Gagal memuat gambar" (by rw [hl]; rfl)]
        exact ⟨rfl, by simp [hcalls]⟩
      | raised message =>
        rw [diagnosePlant_file_error s rt message (by rw [hl]; rfl)]
        exact ⟨rfl, by simp [hcalls]⟩
  refine ⟨hret, hrun, by rw [hstate.1]; exact hens.1, hstate.2, ?_⟩
  intro img hin
  rcases hin with h | ⟨h, hl⟩
  · rw [h, himg img]
  · rw [h, diagnosePlant_file_ok s rt img hl, himg img]

/-- A fresh service whose loader returns `false`, then a `diagnosePlant` on a file that does not
decode and an `initModel` whose loader raises: simulation mode is still on and an image gets the
simulated prediction. -/
theorem simulation_mode_kept_while_load_fails_witness :
    ((PlantDiseaseService.new.initModel (.ok false)).2.1.run
      [.diagnosePlant failingService .file, .initModel (.error "load failed")]).simulationMode =
      true ∧
    (((PlantDiseaseService.new.initModel (.ok false)).2.1.run
      [.diagnosePlant failingService .file, .initModel (.error "load failed")]).diagnosePlant
        failingService (.image photo)).1 =
      withDiseaseInfo (_getSimulatedPrediction failingService.random) :=
  have h := simulation_mode_kept_while_load_fails PlantDiseaseService.new (.ok false)
    [.diagnosePlant failingService .file, .initModel (.error "load failed")] failingService
    (.image photo) rfl rfl
    (by
      intro op hop
      simp only [List.mem_cons, List.mem_singleton, List.not_mem_nil, or_false] at hop
      rcases hop with h | h <;> (subst h; rfl))
    rfl
  ⟨h.2.1.1, h.2.2.2.2 photo (Or.inl rfl)⟩

/-- C7: `diagnosePlant` is total: for every service state, every input and every answer of the
loader, the image decoder, the predictor and `Math.random`, raised errors included, it returns a
record, which is a prediction with its disease information or the `Unknown` record carrying an
error message.  Whenever a step of its body raises (an input that is neither a `File` nor an
`HTMLImageElement`, a file whose conversion to an image raises, a prediction that raises when the
service is not in simulation mode) the record is class `Unknown`, original class `Unknown`,
confidence `0`, not confident, the `Unknown` disease record, and `error` the message of the
failure; when no step raises the record has no `error`.  A failure of the loader is not such a
step: `initModel` absorbs it and the service goes on in simulation mode. -/
theorem diagnosePlant_never_raises (self : PlantDiseaseService) (rt : ServiceRuntime)
    (input : DiagnoseInput) :
    ((∃ prediction, (self.diagnosePlant rt input).1 = withDiseaseInfo prediction) ∨
      ∃ message, (self.diagnosePlant rt input).1 =
        { className := some "Unknown", originalClassName := some "Unknown", confidence := some 0,
          allPredictions := none, groupedPredictions := none, isConfident := false,
          diseaseInfo := diseaseInfo.lookup "Unknown", error := some message }) ∧
    (input = .other →
      (self.diagnosePlant rt input).1 =
        { className := some "Unknown", originalClassName := some "Unknown", confidence := some 0,
          allPredictions := none, groupedPredictions := none, isConfident := false,
          diseaseInfo := diseaseInfo.lookup "Unknown",
          error := some "Input harus berupa File atau HTMLImageElement" }) ∧
    (∀ message, input = .file → _createImageFromFile rt.imageLoad = .error message →
      (self.diagnosePlant rt input).1 =
        { className := some "Unknown", originalClassName := some "Unknown", confidence := some 0,
          allPredictions := none, groupedPredictions := none, isConfident := false,
          diseaseInfo := diseaseInfo.lookup "Unknown", error := some message }) ∧
    (∀ img message, input = .image img ∨ (input = .file ∧ rt.imageLoad = .onload img) →
      (self.diagnosePlant rt input).2.1.simulationMode = false →
      rt.predict (.htmlImage img) = .error message →
      (self.diagnosePlant rt input).1 =
        { className := some "Unknown", originalClassName := some "Unknown", confidence := some 0,
          allPredictions := none, groupedPredictions := none, isConfident := false,
          diseaseInfo := diseaseInfo.lookup "Unknown", error := some message }) ∧
    (∀ img, input = .image img ∨ (input = .file ∧ rt.imageLoad = .onload img) →
      ((self.diagnosePlant rt input).2.1.simulationMode = true ∨
        ∃ prediction, rt.predict (.htmlImage img) = .ok prediction) →
      (self.diagnosePlant rt input).1.error = none) ∧
    diseaseInfo.lookup "Unknown" =
      some { description := "Tidak dapat menentukan penyakit dengan pasti. Silakan coba ambil foto dengan pencahayaan yang lebih baik dan fokus pada bagian tanaman yang terinfeksi.",
             treatment := "Konsultasikan dengan ahli pertanian untuk penanganan yang tepat.",
             prevention := "Lakukan pemeriksaan rutin pada tanaman dan jaga kebersihan area sekitar tanaman." } := by
  have himage : ∀ img,
      ((∃ prediction, (self.diagnosePlant rt (.image img)).1 = withDiseaseInfo prediction) ∨
        ∃ message, (self.diagnosePlant rt (.image img)).1 = errorDiagnosis message) ∧
      (self.diagnosePlant rt (.image img)).2.1 = (self.ensureModel rt).1 ∧
      (∀ message, (self.ensureModel rt).1.simulationMode = false →
        rt.predict (.htmlImage img) = .error message →
        (self.diagnosePlant rt (.image img)).1 = errorDiagnosis message) ∧
      (((self.ensureModel rt).1.simulationMode = true ∨
          ∃ prediction, rt.predict (.htmlImage img) = .ok prediction) →
        (self.diagnosePlant rt (.image img)).1.error = none) := by
    intro img
    cases hs : (self.ensureModel rt).1.simulationMode
    · rw [diagnosePlant_image_model self rt img hs]
      refine ⟨?_, rfl, ?_, ?_⟩
      · cases rt.predict (.htmlImage img) with
        | ok prediction => exact Or.inl ⟨prediction, rfl⟩
        | error message => exact Or.inr ⟨message, rfl⟩
      · intro message _ hp
        rw [hp]
      · intro h
        rcases h with h | ⟨prediction, hp⟩
        · cases h
        · rw [hp]
          rfl
    · rw [diagnosePlant_image_simulated self rt img hs]
      exact ⟨Or.inl ⟨_, rfl⟩, rfl, fun _ h => absurd h (by simp), fun _ => rfl⟩
  refine ⟨?_, ?_, ?_, ?_, ?_, by decide⟩
  · cases input with
    | other => exact Or.inr ⟨_, rfl⟩
    | image img => exact (himage img).1
    | file =>
      cases hl : rt.imageLoad with
      | onload img => rw [diagnosePlant_file_ok self rt img hl]; exact (himage img).1
      | onerror =>
        rw [diagnosePlant_file_error self rt "Gagal memuat gambar" (by rw [hl]; rfl)]
        exact Or.inr ⟨_, rfl⟩
      | raised message =>
        rw [diagnosePlant_file_error self rt message (by rw [hl]; rfl)]
        exact Or.inr ⟨_, rfl⟩
  · intro h
    rw [h]
    rfl
  · intro message h hm
    rw [h, diagnosePlant_file_error self rt message hm]
    rfl
  · intro img message hin hmode hp
    rcases hin with h | ⟨h, hl⟩
    · rw [h] at hmode ⊢
      rw [(himage img).2.1] at hmode
      exact (himage img).2.2.1 message hmode hp
    · rw [h] at hmode ⊢
      rw [diagnosePlant_file_ok self rt img hl] at hmode ⊢
      simp only at hmode ⊢
      rw [(himage img).2.1] at hmode
      exact (himage img).2.2.1 message hmode hp
  · intro img hin hgood
    rcases hin with h | ⟨h, hl⟩
    · rw [h] at hgood ⊢
      rw [(himage img).2.1] at hgood
      exact (himage img).2.2.2 hgood
    · rw [h] at hgood ⊢
      rw [diagnosePlant_file_ok self rt img hl] at hgood ⊢
      simp only at hgood ⊢
      rw [(himage img).2.1] at hgood
      exact (himage img).2.2.2 hgood

/-- An input that is neither a `File` nor an `HTMLImageElement`: the `Unknown` record with the
message of the raised error. -/
theorem diagnosePlant_never_raises_witness :
    (PlantDiseaseService.new.diagnosePlant failingService .other).1 =
      { className := some "Unknown", originalClassName := some "Unknown", confidence := some 0,
        allPredictions := none, groupedPredictions := none, isConfident := false,
        diseaseInfo := diseaseInfo.lookup "Unknown",
        error := some "Input harus berupa File atau HTMLImageElement" } :=
  (diagnosePlant_never_raises PlantDiseaseService.new failingService .other).2.1 rfl

/-! ### Disease information -/

theorem diagnosePlant_eq_match (self : PlantDiseaseService) (rt : ServiceRuntime)
    (input : DiagnoseInput) :
    (self.diagnosePlant rt input).1 =
      match (self.diagnoseTry rt input).1 with
      | .ok prediction => withDiseaseInfo prediction
      | .error message => errorDiagnosis message := by
  unfold PlantDiseaseService.diagnosePlant
  rcases self.diagnoseTry rt input with ⟨r, s, c⟩
  cases r <;> rfl

theorem diagnoseTry_ok_source (self : PlantDiseaseService) (rt : ServiceRuntime)
    (input : DiagnoseInput) (p : PredictionResult) (h : (self.diagnoseTry rt input).1 = .ok p) :
    p = _getSimulatedPrediction rt.random ∨ ∃ img, rt.predict (.htmlImage img) = .ok p := by
  have hchoose : ∀ img, ((self.ensureModel rt).1.choosePrediction rt img).1 = .ok p →
      p = _getSimulatedPrediction rt.random ∨ ∃ img, rt.predict (.htmlImage img) = .ok p := by
    intro img hc
    unfold PlantDiseaseService.choosePrediction at hc
    cases hs : (self.ensureModel rt).1.simulationMode
    · rw [hs] at hc
      exact Or.inr ⟨img, hc⟩
    · rw [hs] at hc
      simp only [if_true] at hc
      exact Or.inl (Except.ok.inj hc).symm
  unfold PlantDiseaseService.diagnoseTry at h
  cases input with
  | other => simp at h
  | image img => exact hchoose img h
  | file =>
    simp only at h
    cases hl : _createImageFromFile rt.imageLoad with
    | error m => rw [hl] at h; simp at h
    | ok img => rw [hl] at h; exact hchoose img h

/-- The class name of a record returned by `interpret`. -/
theorem interpret_className (v : List ℚ) :
    (interpret v).className = none ∨ (interpret v).className = some "Unknown" ∨
      ∃ name ∈ CLASS_NAMES, (interpret v).className = some name := by
  cases hb : belowThreshold (topConfidence v) with
  | true =>
    refine Or.inr (Or.inl ?_)
    simp only [interpret, hb, if_true, unknownResult]
  | false =>
    simp only [interpret, hb, Bool.false_eq_true, if_false]
    cases topPredictionIndex v with
    | none => exact Or.inl rfl
    | some i =>
      cases hn : CLASS_NAMES[i]? with
      | none => left; simpa using hn
      | some name =>
        right; right
        exact ⟨name, List.getElem?_mem hn, by simpa using hn⟩

theorem predict_className (loader : PlantDiseaseModel) (rt : Runtime) (image : ImageInput) :
    (loader.predict rt image).1.className = none ∨
      (loader.predict rt image).1.className = some "Unknown" ∨
      ∃ name ∈ CLASS_NAMES, (loader.predict rt image).1.className = some name := by
  rcases predict_cases loader rt image with h | ⟨v, _, h⟩
  · rw [h]; exact Or.inr (Or.inl rfl)
  · rw [h]; exact interpret_className v

theorem simulated_className_cases (random : Nat → ℚ) :
    (_getSimulatedPrediction random).className = none ∨
      ∃ name ∈ CLASS_NAMES, (_getSimulatedPrediction random).className = some name := by
  show simulatedClassName random = none ∨
    ∃ name ∈ CLASS_NAMES, simulatedClassName random = some name
  unfold simulatedClassName
  by_cases hneg : randomIndex random < 0
  · left; simp [hneg]
  · simp only [hneg, if_false]
    cases hn : diseaseClasses[(randomIndex random).toNat]? with
    | none => exact Or.inl rfl
    | some name =>
      right
      have hmem : name ∈ diseaseClasses := List.getElem?_mem hn
      have hall : ∀ n ∈ diseaseClasses, n ∈ CLASS_NAMES := by decide
      exact ⟨name, hall name hmem, rfl⟩

theorem diseaseInfo_of_class_name :
    ∀ name ∈ CLASS_NAMES, diseaseInfoFor (diseaseClassOf (some name)) = diseaseInfo.lookup name ∧
      (diseaseInfo.lookup name).isSome = true ∧
      diseaseInfo.lookup name ≠ diseaseInfo.lookup "Unknown" := by
  decide

theorem diseaseInfo_distinct :
    ∀ a ∈ CLASS_NAMES, ∀ b ∈ CLASS_NAMES, diseaseInfo.lookup a = diseaseInfo.lookup b → a = b := by
  decide

/-! ### `loadModel` -/

theorem diseaseInfoFor_of_produced (className : Option String)
    (h : className = none ∨ className = some "Unknown" ∨
      ∃ name ∈ CLASS_NAMES, className = some name) :
    diseaseInfoFor (diseaseClassOf className) = diseaseInfo.lookup (className.getD "Unknown") ∧
    (diseaseInfo.lookup (className.getD "Unknown")).isSome = true ∧
    (diseaseInfo.lookup (className.getD "Unknown") = diseaseInfo.lookup "Unknown" ↔
      className = some "Unknown" ∨ className = none) := by
  rcases h with h | h | ⟨name, hmem, h⟩
  · subst h
    exact ⟨by decide, by decide, by simp⟩
  · subst h
    exact ⟨by decide, by decide, by simp⟩
  · subst h
    obtain ⟨h1, h2, h3⟩ := diseaseInfo_of_class_name name hmem
    refine ⟨h1, h2, ?_⟩
    simp only [Option.getD_some, Option.some.injEq, or_false]
    constructor
    · intro h; exact absurd h h3
    · intro h
      rcases h with h | h
      · rw [h]
      · cases h

/-- C8: whenever `diagnosePlant` reaches a prediction `p`, produced by `predict` of the model
loader or by the simulator, it returns all fields of `p` unchanged, no `error`, and `diseaseInfo`
equal to the record of the table keyed by `p.className` (by `Unknown` when the class is missing),
which exists.  Each of the ten display class names has a record of its own in the table,
different from the `Unknown` record and from the records of the other names, so the `Unknown`
record is attached exactly when `p.className` is `Unknown` or missing. -/
theorem diagnosePlant_merges_disease_info (self : PlantDiseaseService)
    (loader : PlantDiseaseModel) (lrt : Runtime) (loadModel : Except String Bool)
    (imageLoad : ImageLoad) (random : Nat → ℚ) (input : DiagnoseInput) (p : PredictionResult)
    (hp : (self.diagnoseTry (ServiceRuntime.ofLoader loader lrt loadModel imageLoad random)
      input).1 = .ok p) :
    (self.diagnosePlant (ServiceRuntime.ofLoader loader lrt loadModel imageLoad random) input).1 =
      { className := p.className, originalClassName := p.originalClassName,
        confidence := p.confidence, allPredictions := some p.allPredictions,
        groupedPredictions := some p.groupedPredictions, isConfident := p.isConfident,
        diseaseInfo := diseaseInfo.lookup (p.className.getD "Unknown"), error := none } ∧
    (diseaseInfo.lookup (p.className.getD "Unknown")).isSome = true ∧
    (diseaseInfo.lookup (p.className.getD "Unknown") = diseaseInfo.lookup "Unknown" ↔
      p.className = some "Unknown" ∨ p.className = none) ∧
    (∀ name ∈ CLASS_NAMES, (diseaseInfo.lookup name).isSome = true ∧
      diseaseInfo.lookup name ≠ diseaseInfo.lookup "Unknown") ∧
    (∀ a ∈ CLASS_NAMES, ∀ b ∈ CLASS_NAMES,
      diseaseInfo.lookup a = diseaseInfo.lookup b → a = b) := by
  have hname : p.className = none ∨ p.className = some "Unknown" ∨
      ∃ name ∈ CLASS_NAMES, p.className = some name := by
    rcases diagnoseTry_ok_source self _ input p hp with h | ⟨img, h⟩
    · rw [h]
      rcases simulated_className_cases random with h2 | h2
      · exact Or.inl h2
      · exact Or.inr (Or.inr h2)
    · have hpred : p = (loader.predict lrt (.htmlImage img)).1 := (Except.ok.inj h).symm
      rw [hpred]
      exact predict_className loader lrt _
  obtain ⟨h1, h2, h3⟩ := diseaseInfoFor_of_produced p.className hname
  refine ⟨?_, h2, h3, fun name hmem => (diseaseInfo_of_class_name name hmem).2,
    diseaseInfo_distinct⟩
  rw [diagnosePlant_eq_match, hp]
  simp only [withDiseaseInfo, h1]

/-- A loaded service, the model loader on the example of the specification: the record of the
class that `predict` returned is attached. -/
theorem diagnosePlant_merges_disease_info_witness :
    ((PlantDiseaseService.mk true false).diagnosePlant
      (ServiceRuntime.ofLoader loadedModel healthyRuntime (.ok true) .onerror steadyRandom)
      (.image photo)).1.diseaseInfo =
      diseaseInfo.lookup
        ((loadedModel.predict healthyRuntime (.htmlImage photo)).1.className.getD "Unknown") :=
  congrArg Diagnosis.diseaseInfo
    (diagnosePlant_merges_disease_info (PlantDiseaseService.mk true false) loadedModel
      healthyRuntime (.ok true) .onerror steadyRandom (.image photo)
      (loadedModel.predict healthyRuntime (.htmlImage photo)).1 rfl).1

theorem ensureInputShape_id (m m2 : LayersModel) (h : ensureInputShape m = .ok m2) :
    m2.id = m.id := by
  unfold ensureInputShape at h
  split at h
  · simp at h
  · cases h; rfl
  · cases h; rfl

theorem chooseModel_aliased (rt : LoadRuntime) (fb : LayersModel)
    (h : (chooseModel rt fb).2 = true) : (chooseModel rt fb).1 = fb := by
  unfold chooseModel at h ⊢
  cases h1 : loadWithFixedConfig rt with
  | ok x => rw [h1] at h; cases h
  | error e1 =>
    cases h2 : rt.loadFromPath with
    | ok x => rw [h1] at h; simp only [h2] at h; cases h
    | error e2 => rfl

theorem chooseModel_both_failed (rt : LoadRuntime) (fb : LayersModel)
    (h1 : ∃ e, loadWithFixedConfig rt = .error e) (h2 : ∃ e, rt.loadFromPath = .error e) :
    chooseModel rt fb = (fb, true) := by
  obtain ⟨e1, h1⟩ := h1
  obtain ⟨e2, h2⟩ := h2
  simp [chooseModel, h1, h2]

theorem loadModel_with_fallback (self : PlantDiseaseModel) (rt : LoadRuntime) (fb : LayersModel)
    (hc : createSimpleModel rt = some fb) :
    ∃ model fallbackNow,
      self.loadModel rt =
        (true, { model := some model, fallbackModel := some fallbackNow, isModelLoaded := true }) ∧
      fallbackNow.id = fb.id ∧
      ((((∃ e, loadWithFixedConfig rt = .error e) ∧ ∃ e, rt.loadFromPath = .error e) ∨
          ∃ e, rt.warmUp = .error e) → model = fallbackNow) := by
  cases hs : ensureInputShape (chooseModel rt fb).1 with
  | error e =>
    exact ⟨fb, fb, by simp only [PlantDiseaseModel.loadModel, hc, hs], rfl, fun _ => rfl⟩
  | ok m =>
    have hid := ensureInputShape_id _ _ hs
    have hnow : (if (chooseModel rt fb).2 = true then m else fb).id = fb.id := by
      cases hal : (chooseModel rt fb).2
      · rfl
      · simp only [if_true]
        rw [hid, chooseModel_aliased rt fb hal]
    cases hwarm : rt.warmUp with
    | error e =>
      exact ⟨_, _, by simp only [PlantDiseaseModel.loadModel, hc, hs, hwarm], hnow, fun _ => rfl⟩
    | ok u =>
      refine ⟨m, _, by simp only [PlantDiseaseModel.loadModel, hc, hs, hwarm], hnow, ?_⟩
      intro hfail
      rcases hfail with ⟨h1, h2⟩ | ⟨e, h⟩
      · rw [chooseModel_both_failed rt fb h1 h2]
        rfl
      · cases h

/-- C9: `loadModel` is total: for every state and every answer of `fetch` and of the runtime,
raised errors included, it returns a boolean.  It returns `false` exactly when
`createSimpleModel` returned `null`, and then `isModelLoaded` is false.  Whenever the fallback
network was built it returns `true` with `isModelLoaded` true and `model` not `null`; and when
both load methods fail, or the warm-up raises, `model` is the fallback network. -/
theorem loadModel_never_raises (self : PlantDiseaseModel) (rt : LoadRuntime) :
    ((self.loadModel rt).1 = false ↔ createSimpleModel rt = none) ∧
    ((self.loadModel rt).1 = false → (self.loadModel rt).2.isModelLoaded = false) ∧
    (∀ fallback, createSimpleModel rt = some fallback →
      (self.loadModel rt).1 = true ∧ (self.loadModel rt).2.isModelLoaded = true ∧
      (self.loadModel rt).2.model ≠ none ∧
      ((((∃ e, loadWithFixedConfig rt = .error e) ∧ ∃ e, rt.loadFromPath = .error e) ∨
          ∃ e, rt.warmUp = .error e) →
        (self.loadModel rt).2.model = (self.loadModel rt).2.fallbackModel ∧
        ∃ model, (self.loadModel rt).2.model = some model ∧ model.id = fallback.id)) := by
  cases hc : createSimpleModel rt with
  | none =>
    have h : self.loadModel rt =
        (false, { self with fallbackModel := none, isModelLoaded := false }) := by
      simp [PlantDiseaseModel.loadModel, hc]
    rw [h]
    exact ⟨⟨fun _ => rfl, fun _ => rfl⟩, fun _ => rfl, fun fallback hfb => by cases hfb⟩
  | some fb =>
    obtain ⟨model, fallbackNow, h, hid, hsub⟩ := loadModel_with_fallback self rt fb hc
    rw [h]
    refine ⟨⟨fun hf => Bool.noConfusion hf, fun hn => Option.noConfusion hn⟩,
      fun hf => Bool.noConfusion hf, ?_⟩
    intro fallback hfb
    cases hfb
    refine ⟨rfl, rfl, Option.some_ne_none _, ?_⟩
    intro hfail
    have := hsub hfail
    subst this
    exact ⟨rfl, model, rfl, hid⟩

/-- Both load methods fail with a network error: `true`, and the model is the fallback
network. -/
theorem loadModel_never_raises_witness :
    (PlantDiseaseModel.new.loadModel offlineLoad).1 = true ∧
    (PlantDiseaseModel.new.loadModel offlineLoad).2.isModelLoaded = true ∧
    (PlantDiseaseModel.new.loadModel offlineLoad).2.model =
      (PlantDiseaseModel.new.loadModel offlineLoad).2.fallbackModel :=
  have h := (loadModel_never_raises PlantDiseaseModel.new offlineLoad).2.2 sampleNetwork rfl
  ⟨h.1, h.2.1, (h.2.2.2 (Or.inl ⟨⟨"Failed to fetch", rfl⟩, ⟨"Failed to fetch", rfl⟩⟩)).1⟩

/-! ### `fixModelConfig` -/

theorem lookupProp_assignProp_same (key : String) (x : JSValue) (ps : List (String × JSValue)) :
    lookupProp key (assignProp key x ps) = some x := by
  induction ps with
  | nil => simp [assignProp, lookupProp]
  | cons p ps ih =>
    obtain ⟨k, v⟩ := p
    by_cases h : k = key
    · simp [assignProp, lookupProp, h]
    · simp [assignProp, lookupProp, h, ih]

theorem lookupProp_assignProp_other (key other : String) (x : JSValue)
    (ps : List (String × JSValue)) (hne : key ≠ other) :
    lookupProp key (assignProp other x ps) = lookupProp key ps := by
  induction ps with
  | nil => simp [assignProp, lookupProp, Ne.symm hne]
  | cons p ps ih =>
    obtain ⟨k, v⟩ := p
    by_cases h : k = other
    · subst h
      simp [assignProp, lookupProp, Ne.symm hne]
    · by_cases h2 : k = key
      · subst h2
        simp [assignProp, lookupProp, h]
      · simp [assignProp, lookupProp, h, h2, ih]

theorem assignProp_of_lookupProp (key : String) (x : JSValue) (ps : List (String × JSValue))
    (h : lookupProp key ps = some x) : assignProp key x ps = ps := by
  induction ps with
  | nil => simp [lookupProp] at h
  | cons p ps ih =>
    obtain ⟨k, v⟩ := p
    by_cases hk : k = key
    · simp only [lookupProp, hk, if_true, Option.some.injEq] at h
      simp [assignProp, hk, h]
    · simp only [lookupProp, hk, if_false] at h
      simp [assignProp, hk, ih h]

theorem getPath_of_hasLayers (modelJSON layers : JSValue) (h : HasLayers modelJSON layers) :
    getPath ["modelTopology", "config", "layers"] (some modelJSON) = .ok (some layers) := by
  obtain ⟨props, topology, config, rfl, h1, h2, h3⟩ := h
  simp [getPath, getOf, JSValue.get, h1, h2, h3]

theorem layersOf_of_hasLayers (modelJSON : JSValue) (items : List JSValue)
    (props : List (String × JSValue)) (h : HasLayers modelJSON (.array items props)) :
    layersOf modelJSON = some items := by
  simp [layersOf, getPath_of_hasLayers modelJSON _ h]

theorem modifyAt_of_hasLayers (change : JSValue → Except String JSValue)
    (modelJSON layers newLayers : JSValue) (h : HasLayers modelJSON layers)
    (hchange : change layers = .ok newLayers) :
    ∃ next, modifyAt change ["modelTopology", "config", "layers"] modelJSON = .ok next ∧
      HasLayers next newLayers ∧ (newLayers = layers → next = modelJSON) := by
  obtain ⟨props, topology, config, rfl, h1, h2, h3⟩ := h
  refine ⟨.object (assignProp "modelTopology"
    (.object (assignProp "config" (.object (assignProp "layers" newLayers config)) topology))
    props), ?_, ⟨_, _, _, rfl, lookupProp_assignProp_same _ _ _, lookupProp_assignProp_same _ _ _,
    lookupProp_assignProp_same _ _ _⟩, ?_⟩
  · simp [modifyAt, JSValue.get, JSValue.set, h1, h2, h3, hchange]
  · intro heq
    rw [heq, assignProp_of_lookupProp _ _ _ h3, assignProp_of_lookupProp _ _ _ h2,
      assignProp_of_lookupProp _ _ _ h1]

theorem modifyAt_error_of_hasLayers (change : JSValue → Except String JSValue)
    (modelJSON layers : JSValue) (e : String) (h : HasLayers modelJSON layers)
    (hchange : change layers = .error e) :
    modifyAt change ["modelTopology", "config", "layers"] modelJSON = .error e := by
  obtain ⟨props, topology, config, rfl, h1, h2, h3⟩ := h
  simp [modifyAt, JSValue.get, h1, h2, h3, hchange]

theorem layerObject_form (layer : JSValue) (h : isLayerObject layer = true) :
    ∃ props config, layer = .object props ∧ lookupProp "config" props = some (.object config) := by
  cases layer with
  | object props =>
    refine ⟨props, ?_⟩
    simp only [isLayerObject] at h
    cases hc : lookupProp "config" props with
    | none => rw [hc] at h; cases h
    | some c =>
      rw [hc] at h
      cases c with
      | object config => exact ⟨config, rfl, rfl⟩
      | null => cases h
      | bool b => cases h
      | number q => cases h
      | string s => cases h
      | array items ps => cases h
  | null => cases h
  | bool b => cases h
  | number q => cases h
  | string s => cases h
  | array items ps => cases h

theorem someInputLayer_of_layerObjects (items : List JSValue)
    (h : items.all isLayerObject = true) :
    someInputLayer items = .ok (items.any isInputLayer) := by
  induction items with
  | nil => rfl
  | cons layer rest ih =>
    simp only [List.all_cons, Bool.and_eq_true] at h
    obtain ⟨props, config, rfl, _⟩ := layerObject_form layer h.1
    simp only [someInputLayer, JSValue.get, List.any_cons, isInputLayer]
    cases hn : isInputLayerName (lookupProp "class_name" props) with
    | true => simp
    | false => simp [ih h.2]

/-- What `ensureShape` does to a layer object: a truthy declared shape is kept, a missing one is
set to the fixed shape; the class of the layer is kept. -/
theorem ensureShape_of_layerObject (layer : JSValue) (h : isLayerObject layer = true) :
    ∃ newLayer, ensureShape layer = .ok newLayer ∧ isInputLayer newLayer = isInputLayer layer ∧
      (truthy (declaredShape layer) = true →
        newLayer = layer ∧ declaredShape newLayer = declaredShape layer) ∧
      (truthy (declaredShape layer) = false → declaredShape newLayer = some fixedInputShape) := by
  obtain ⟨props, config, rfl, hc⟩ := layerObject_form layer h
  have hpath : getPath ["config", "batch_input_shape"] (some (.object props)) =
      .ok (lookupProp "batch_input_shape" config) := by
    simp [getPath, getOf, JSValue.get, hc]
  have hdecl : declaredShape (.object props) = lookupProp "batch_input_shape" config := by
    simp [declaredShape, hpath]
  cases ht : truthy (lookupProp "batch_input_shape" config) with
  | true =>
    refine ⟨.object props, by simp [ensureShape, hpath, ht], rfl, fun _ => ⟨rfl, rfl⟩, ?_⟩
    intro hf
    rw [hdecl, ht] at hf
    cases hf
  | false =>
    refine ⟨.object (assignProp "config"
      (.object (assignProp "batch_input_shape" fixedInputShape config)) props), ?_, ?_, ?_, ?_⟩
    · simp [ensureShape, hpath, ht, modifyAt, JSValue.get, JSValue.set, hc]
    · simp only [isInputLayer, JSValue.get]
      rw [lookupProp_assignProp_other "class_name" "config" _ props (by decide)]
    · intro htrue
      rw [hdecl, ht] at htrue
      cases htrue
    · intro _
      simp [declaredShape, getPath, getOf, JSValue.get, lookupProp_assignProp_same]

/-- The last two statements on a model JSON whose layer list is an array of layer objects. -/
theorem fix_tail_of_hasLayers (modelJSON : JSValue) (items : List JSValue)
    (props : List (String × JSValue)) (h : HasLayers modelJSON (.array items props))
    (hall : items.all isLayerObject = true) :
    ∃ first rest,
      layersOf (runStatements [addInputLayer, ensureFirstShape] modelJSON) = some (first :: rest) ∧
      (first :: rest).any isInputLayer = true ∧
      truthy (declaredShape first) = true ∧
      (items.any isInputLayer = false →
        first = inputLayer ∧ rest = items ∧ declaredShape first = some fixedInputShape) ∧
      (items.any isInputLayer = true →
        ∃ oldFirst, items = oldFirst :: rest ∧
          (truthy (declaredShape oldFirst) = true →
            runStatements [addInputLayer, ensureFirstShape] modelJSON = modelJSON ∧
            declaredShape first = declaredShape oldFirst) ∧
          (truthy (declaredShape oldFirst) = false →
            declaredShape first = some fixedInputShape)) := by
  have hsome := someInputLayer_of_layerObjects items hall
  have hget := getPath_of_hasLayers modelJSON _ h
  cases hany : items.any isInputLayer with
  | false =>
    obtain ⟨next, hmod, hnext, _⟩ := modifyAt_of_hasLayers unshiftInputLayer modelJSON
      (.array items props) (.array (inputLayer :: items) props) h rfl
    have h4 : addInputLayer modelJSON = .ok next := by
      simp [addInputLayer, hget, hasInputLayer, hsome, hany, hmod]
    obtain ⟨last, hmod2, hlast, hsame⟩ := modifyAt_of_hasLayers ensureFirstLayerShape next
      (.array (inputLayer :: items) props) (.array (inputLayer :: items) props) hnext rfl
    have hlast2 : last = next := hsame rfl
    have hrun : runStatements [addInputLayer, ensureFirstShape] modelJSON = next := by
      simp [runStatements, h4, ensureFirstShape, hmod2, hlast2]
    rw [hrun]
    refine ⟨inputLayer, items, layersOf_of_hasLayers next _ _ hnext, rfl, rfl,
      fun _ => ⟨rfl, rfl, rfl⟩, fun hc => by cases hc⟩
  | true =>
    have h4 : addInputLayer modelJSON = .ok modelJSON := by
      simp [addInputLayer, hget, hasInputLayer, hsome, hany]
    cases items with
    | nil => simp at hany
    | cons oldFirst rest =>
      simp only [List.all_cons, Bool.and_eq_true] at hall
      obtain ⟨newFirst, hens, hclass, hkeep, hset⟩ := ensureShape_of_layerObject oldFirst hall.1
      have hchange : ensureFirstLayerShape (.array (oldFirst :: rest) props) =
          .ok (.array (newFirst :: rest) props) := by
        simp [ensureFirstLayerShape, hens]
      obtain ⟨next, hmod, hnext, hsame⟩ := modifyAt_of_hasLayers ensureFirstLayerShape modelJSON
        _ _ h hchange
      have hrun : runStatements [addInputLayer, ensureFirstShape] modelJSON = next := by
        simp [runStatements, h4, ensureFirstShape, hmod]
      rw [hrun]
      refine ⟨newFirst, rest, layersOf_of_hasLayers next _ _ hnext, ?_, ?_, ?_, ?_⟩
      · simp only [List.any_cons] at hany ⊢
        rw [hclass]
        exact hany
      · cases ht : truthy (declaredShape oldFirst) with
        | true => rw [(hkeep ht).2]; exact ht
        | false => rw [hset ht]; rfl
      · intro hc
        cases hc
      · intro _
        refine ⟨oldFirst, rfl, ?_, hset⟩
        intro ht
        have := (hkeep ht).1
        subst this
        exact ⟨hsame rfl, rfl⟩

theorem wellFormedTopology_cases (topology : Option JSValue)
    (h : wellFormedTopology topology = true) :
    truthy topology = false ∨
      ∃ props, topology = some (.object props) ∧
        wellFormedConfig (lookupProp "config" props) = true := by
  cases topology with
  | none => exact Or.inl rfl
  | some v =>
    cases v with
    | object props => exact Or.inr ⟨props, rfl, h⟩
    | null => exact Or.inl rfl
    | bool b => left; simpa [wellFormedTopology] using h
    | number q => left; simpa [wellFormedTopology] using h
    | string s => left; simpa [wellFormedTopology] using h
    | array items ps => simp [wellFormedTopology, truthy] at h

theorem wellFormedConfig_cases (config : Option JSValue)
    (h : wellFormedConfig config = true) :
    truthy config = false ∨
      ∃ props, config = some (.object props) ∧
        wellFormedLayers (lookupProp "layers" props) = true := by
  cases config with
  | none => exact Or.inl rfl
  | some v =>
    cases v with
    | object props => exact Or.inr ⟨props, rfl, h⟩
    | null => exact Or.inl rfl
    | bool b => left; simpa [wellFormedConfig] using h
    | number q => left; simpa [wellFormedConfig] using h
    | string s => left; simpa [wellFormedConfig] using h
    | array items ps => simp [wellFormedConfig, truthy] at h

theorem wellFormedLayers_cases (layers : Option JSValue)
    (h : wellFormedLayers layers = true) :
    truthy layers = false ∨
      ∃ items props, layers = some (.array items props) ∧ items.all isLayerObject = true := by
  cases layers with
  | none => exact Or.inl rfl
  | some v =>
    cases v with
    | array items props => exact Or.inr ⟨items, props, rfl, h⟩
    | null => exact Or.inl rfl
    | bool b => left; simpa [wellFormedLayers] using h
    | number q => left; simpa [wellFormedLayers] using h
    | string s => left; simpa [wellFormedLayers] using h
    | object ps => simp [wellFormedLayers, truthy] at h

/-- A chain of reads that starts from a falsy value does not end in an array. -/
theorem getPath_of_falsy (path : List String) (value : Option JSValue)
    (h : truthy value = false) (items : List JSValue) (props : List (String × JSValue)) :
    getPath path value ≠ .ok (some (.array items props)) := by
  induction path generalizing value with
  | nil =>
    intro heq
    simp only [getPath, Except.ok.injEq] at heq
    rw [heq] at h
    cases h
  | cons key rest ih =>
    cases value with
    | none => simp [getPath, getOf]
    | some v =>
      cases v with
      | null => simp [getPath, getOf, JSValue.get]
      | bool b => simpa [getPath, getOf, JSValue.get] using ih none rfl
      | number q => simpa [getPath, getOf, JSValue.get] using ih none rfl
      | string s => simpa [getPath, getOf, JSValue.get] using ih none rfl
      | array is ps => cases h
      | object ps => cases h

theorem declaredLayers_of_not_array (modelJSON : JSValue)
    (h : ∀ items props, getPath ["modelTopology", "config", "layers"] (some modelJSON) ≠
      .ok (some (.array items props))) : declaredLayers modelJSON = [] := by
  unfold declaredLayers layersOf
  cases hg : getPath ["modelTopology", "config", "layers"] (some modelJSON) with
  | error e => rfl
  | ok v =>
    cases v with
    | none => rfl
    | some w =>
      cases w with
      | array items props => exact absurd hg (h items props)
      | null => rfl
      | bool b => rfl
      | number q => rfl
      | string s => rfl
      | object ps => rfl

theorem runStatements_cons_ok (statement : JSValue → Except String JSValue)
    (rest : List (JSValue → Except String JSValue)) (modelJSON next : JSValue)
    (h : statement modelJSON = .ok next) :
    runStatements (statement :: rest) modelJSON = runStatements rest next := by
  simp [runStatements, h]

/-- The first three statements on a well-formed model JSON: they succeed and leave a model JSON
whose layer list is the declared one (empty when none was declared); nothing changes when a
layer list was declared. -/
theorem fix_head_of_wellFormed (modelJSON : JSValue) (hwf : wellFormedModel modelJSON = true) :
    ∃ next props,
      fixModelConfig modelJSON = runStatements [addInputLayer, ensureFirstShape] next ∧
      HasLayers next (.array (declaredLayers modelJSON) props) ∧
      (declaredLayers modelJSON).all isLayerObject = true ∧
      (declaredLayers modelJSON ≠ [] → next = modelJSON) := by
  cases modelJSON with
  | null => cases hwf
  | bool b => cases hwf
  | number q => cases hwf
  | string s => cases hwf
  | array items ps => cases hwf
  | object props =>
    have hpath : getPath ["modelTopology", "config", "layers"] (some (.object props)) =
        getPath ["config", "layers"] (lookupProp "modelTopology" props) := by
      simp [getPath, getOf, JSValue.get]
    rcases wellFormedTopology_cases _ hwf with ht | ⟨tp, ht, hwc⟩
    · -- `modelTopology` is missing: the three levels are created
      have hdecl : declaredLayers (.object props) = [] :=
        declaredLayers_of_not_array _ (fun items ps => by
          rw [hpath]; exact getPath_of_falsy _ _ ht items ps)
      have h1 : ensureTopology (.object props) =
          .ok (.object (assignProp "modelTopology" (.object []) props)) := by
        simp [ensureTopology, JSValue.get, JSValue.set, ht]
      have h2 : ensureConfig (.object (assignProp "modelTopology" (.object []) props)) =
          .ok (.object (assignProp "modelTopology" (.object [("config", .object [])])
            (assignProp "modelTopology" (.object []) props))) := by
        simp [ensureConfig, getPath, getOf, JSValue.get, JSValue.set, modifyAt,
          lookupProp_assignProp_same, lookupProp, truthy, assignProp]
      have h3 : ensureLayers (.object (assignProp "modelTopology"
            (.object [("config", .object [])])
            (assignProp "modelTopology" (.object []) props))) =
          .ok (.object (assignProp "modelTopology"
            (.object [("config", .object [("layers", .array [] [])])])
            (assignProp "modelTopology" (.object [("config", .object [])])
              (assignProp "modelTopology" (.object []) props)))) := by
        simp [ensureLayers, getPath, getOf, JSValue.get, JSValue.set, modifyAt,
          lookupProp_assignProp_same, lookupProp, truthy, assignProp]
      obtain ⟨next, h3, hhas⟩ : ∃ next, ensureLayers (.object (assignProp "modelTopology"
            (.object [("config", .object [])])
            (assignProp "modelTopology" (.object []) props))) = .ok next ∧
          HasLayers next (.array [] []) :=
        ⟨_, h3, _, _, _, rfl, lookupProp_assignProp_same _ _ _, rfl, rfl⟩
      refine ⟨next, [], ?_, ?_, ?_, ?_⟩
      · unfold fixModelConfig
        rw [runStatements_cons_ok _ _ _ _ h1, runStatements_cons_ok _ _ _ _ h2,
          runStatements_cons_ok _ _ _ _ h3]
      · rw [hdecl]; exact hhas
      · rw [hdecl]; rfl
      · intro hne; exact absurd hdecl hne
    · have h1 : ensureTopology (.object props) = .ok (.object props) := by
        simp [ensureTopology, JSValue.get, ht, truthy]
      have hpath2 : getPath ["modelTopology", "config", "layers"] (some (.object props)) =
          getPath ["layers"] (lookupProp "config" tp) := by
        simp [getPath, getOf, JSValue.get, ht]
      rcases wellFormedConfig_cases _ hwc with hc | ⟨cp, hc, hwl⟩
      · -- `config` is missing: two levels are created
        have hdecl : declaredLayers (.object props) = [] :=
          declaredLayers_of_not_array _ (fun items ps => by
            rw [hpath2]; exact getPath_of_falsy _ _ hc items ps)
        have h2 : ensureConfig (.object props) =
            .ok (.object (assignProp "modelTopology"
              (.object (assignProp "config" (.object []) tp)) props)) := by
          simp [ensureConfig, getPath, getOf, JSValue.get, JSValue.set, modifyAt, ht, hc]
        have h3 : ensureLayers (.object (assignProp "modelTopology"
              (.object (assignProp "config" (.object []) tp)) props)) =
            .ok (.object (assignProp "modelTopology"
              (.object (assignProp "config" (.object [("layers", .array [] [])])
                (assignProp "config" (.object []) tp)))
              (assignProp "modelTopology"
                (.object (assignProp "config" (.object []) tp)) props))) := by
          simp [ensureLayers, getPath, getOf, JSValue.get, JSValue.set, modifyAt,
            lookupProp_assignProp_same, lookupProp, truthy, assignProp]
        obtain ⟨next, h3, hhas⟩ : ∃ next, ensureLayers (.object (assignProp "modelTopology"
              (.object (assignProp "config" (.object []) tp)) props)) = .ok next ∧
            HasLayers next (.array [] []) :=
          ⟨_, h3, _, _, _, rfl, lookupProp_assignProp_same _ _ _,
            lookupProp_assignProp_same _ _ _, rfl⟩
        refine ⟨next, [], ?_, ?_, ?_, ?_⟩
        · unfold fixModelConfig
          rw [runStatements_cons_ok _ _ _ _ h1, runStatements_cons_ok _ _ _ _ h2,
            runStatements_cons_ok _ _ _ _ h3]
        · rw [hdecl]; exact hhas
        · rw [hdecl]; rfl
        · intro hne; exact absurd hdecl hne
      · have h2 : ensureConfig (.object props) = .ok (.object props) := by
          simp [ensureConfig, getPath, getOf, JSValue.get, ht, hc, truthy]
        have hpath3 : getPath ["modelTopology", "config", "layers"] (some (.object props)) =
            .ok (lookupProp "layers" cp) := by
          simp [getPath, getOf, JSValue.get, ht, hc]
        rcases wellFormedLayers_cases _ hwl with hl | ⟨items, ap, hl, hall⟩
        · -- `layers` is missing: an empty array is created
          have hdecl : declaredLayers (.object props) = [] :=
            declaredLayers_of_not_array _ (fun items ps => by
              rw [hpath3]
              intro heq
              rw [Except.ok.inj heq] at hl
              cases hl)
          have h3 : ensureLayers (.object props) =
              .ok (.object (assignProp "modelTopology"
                (.object (assignProp "config"
                  (.object (assignProp "layers" (.array [] []) cp)) tp)) props)) := by
            simp [ensureLayers, hpath3, hl, JSValue.get, JSValue.set, modifyAt, ht, hc]
          obtain ⟨next, h3, hhas⟩ : ∃ next, ensureLayers (.object props) = .ok next ∧
              HasLayers next (.array [] []) :=
            ⟨_, h3, _, _, _, rfl, lookupProp_assignProp_same _ _ _,
              lookupProp_assignProp_same _ _ _, lookupProp_assignProp_same _ _ _⟩
          refine ⟨next, [], ?_, ?_, ?_, ?_⟩
          · unfold fixModelConfig
            rw [runStatements_cons_ok _ _ _ _ h1, runStatements_cons_ok _ _ _ _ h2,
              runStatements_cons_ok _ _ _ _ h3]
          · rw [hdecl]; exact hhas
          · rw [hdecl]; rfl
          · intro hne; exact absurd hdecl hne
        · -- a layer list is declared: nothing changes
          have hhas : HasLayers (.object props) (.array items ap) :=
            ⟨props, tp, cp, rfl, ht, hc, hl⟩
          have hdecl : declaredLayers (.object props) = items := by
            simp [declaredLayers, layersOf_of_hasLayers _ _ _ hhas]
          have h3 : ensureLayers (.object props) = .ok (.object props) := by
            simp [ensureLayers, hpath3, hl, truthy]
          refine ⟨.object props, ap, ?_, ?_, ?_, fun _ => rfl⟩
          · unfold fixModelConfig
            rw [runStatements_cons_ok _ _ _ _ h1, runStatements_cons_ok _ _ _ _ h2,
              runStatements_cons_ok _ _ _ _ h3]
          · rw [hdecl]; exact hhas
          · rw [hdecl]; exact hall

/-- C11 (amended): for every model JSON object in which `modelTopology`, its `config` and the
`layers` of that are each missing (or falsy) or of the kind Keras writes (objects, and an array
of layer objects that each have a `config` object), the result of `fixModelConfig` has a
non-empty layer list that contains an `InputLayer` and whose first layer declares a
`batch_input_shape`.  The shape is `[null, 224, 224, 3]` when the configuration had no
`InputLayer` (the input layer is then put in front of the declared layers) and when the first
layer of a configuration with an `InputLayer` declared none; a shape that this first layer
already declared is kept, and the model JSON is returned as it was. -/
theorem fixModelConfig_first_layer_declares_shape (modelJSON : JSValue)
    (hwf : wellFormedModel modelJSON = true) :
    ∃ first rest,
      layersOf (fixModelConfig modelJSON) = some (first :: rest) ∧
      (first :: rest).any isInputLayer = true ∧
      truthy (declaredShape first) = true ∧
      ((declaredLayers modelJSON).any isInputLayer = false →
        first = inputLayer ∧ rest = declaredLayers modelJSON ∧
        declaredShape first = some fixedInputShape) ∧
      ((declaredLayers modelJSON).any isInputLayer = true →
        ∃ oldFirst, declaredLayers modelJSON = oldFirst :: rest ∧
          (truthy (declaredShape oldFirst) = true →
            fixModelConfig modelJSON = modelJSON ∧
            declaredShape first = declaredShape oldFirst) ∧
          (truthy (declaredShape oldFirst) = false →
            declaredShape first = some fixedInputShape)) := by
  obtain ⟨next, props, hfix, hhas, hall, hsame⟩ := fix_head_of_wellFormed modelJSON hwf
  obtain ⟨first, rest, h1, h2, h3, h4, h5⟩ :=
    fix_tail_of_hasLayers next (declaredLayers modelJSON) props hhas hall
  rw [← hfix] at h1 h5
  refine ⟨first, rest, h1, h2, h3, h4, ?_⟩
  intro hany
  obtain ⟨oldFirst, hold, hkeep, hset⟩ := h5 hany
  refine ⟨oldFirst, hold, ?_, hset⟩
  intro ht
  have hnext : next = modelJSON := hsame (by rw [hold]; exact List.cons_ne_nil _ _)
  obtain ⟨hk1, hk2⟩ := hkeep ht
  exact ⟨hk1.trans hnext, hk2⟩

/-- A sequential model of one `Dense` layer without input shape: the input layer is inserted. -/
theorem fixModelConfig_first_layer_declares_shape_witness :
    ∃ first rest,
      layersOf (fixModelConfig denseModel) = some (first :: rest) ∧
      (first :: rest).any isInputLayer = true ∧
      truthy (declaredShape first) = true ∧
      ((declaredLayers denseModel).any isInputLayer = false →
        first = inputLayer ∧ rest = declaredLayers denseModel ∧
        declaredShape first = some fixedInputShape) ∧
      ((declaredLayers denseModel).any isInputLayer = true →
        ∃ oldFirst, declaredLayers denseModel = oldFirst :: rest ∧
          (truthy (declaredShape oldFirst) = true →
            fixModelConfig denseModel = denseModel ∧
            declaredShape first = declaredShape oldFirst) ∧
          (truthy (declaredShape oldFirst) = false →
            declaredShape first = some fixedInputShape)) :=
  fixModelConfig_first_layer_declares_shape denseModel rfl

/-- C11 (as stated, refuted): a model JSON whose only layer is an `InputLayer` that declares
`[null, 128, 128, 3]` is returned as it is, so its first layer declares that shape and not
`[null, 224, 224, 3]`.  Besides, a model JSON whose `layers` is not an array is returned as it
is by the `catch` block: the result has no layer list at all. -/
theorem fixModelConfig_keeps_declared_shape :
    (wellFormedModel smallInputModel = true ∧
      fixModelConfig smallInputModel = smallInputModel ∧
      ∀ first rest, layersOf (fixModelConfig smallInputModel) = some (first :: rest) →
        declaredShape first = some (.array [.null, .number 128, .number 128, .number 3] []) ∧
        declaredShape first ≠ some fixedInputShape) ∧
    (fixModelConfig brokenLayersModel = brokenLayersModel ∧
      layersOf (fixModelConfig brokenLayersModel) = none) := by
  refine ⟨⟨rfl, rfl, ?_⟩, rfl, rfl⟩
  intro first rest h
  have hl : layersOf (fixModelConfig smallInputModel) =
      some [.object
        [("class_name", .string "InputLayer"),
         ("config", .object
           [("batch_input_shape",
             .array [.null, .number 128, .number 128, .number 3] [])])]] := rfl
  rw [hl] at h
  simp only [Option.some.injEq, List.cons.injEq] at h
  obtain ⟨hfirst, _⟩ := h
  subst hfirst
  have hd : declaredShape (.object
        [("class_name", .string "InputLayer"),
         ("config", .object
           [("batch_input_shape",
             .array [.null, .number 128, .number 128, .number 3] [])])]) =
      some (.array [.null, .number 128, .number 128, .number 3] []) := rfl
  rw [hd]
  refine ⟨rfl, ?_⟩
  simp [fixedInputShape]

/-! ### Probability vectors -/

/-- A non-empty list of rationals has a largest entry. -/
theorem exists_max_entry (v : List ℚ) (hne : v ≠ []) : ∃ m ∈ v, ∀ x ∈ v, x ≤ m := by
  induction v with
  | nil => exact absurd rfl hne
  | cons a t ih =>
    by_cases ht : t = []
    · subst ht
      exact ⟨a, List.mem_singleton.mpr rfl, fun x hx => le_of_eq (List.mem_singleton.mp hx)⟩
    · obtain ⟨m, hm, hmax⟩ := ih ht
      rcases le_total a m with h | h
      · refine ⟨m, List.mem_cons_of_mem _ hm, ?_⟩
        intro x hx
        rcases List.mem_cons.mp hx with hx | hx
        · rw [hx]; exact h
        · exact hmax x hx
      · refine ⟨a, List.mem_cons_self _ _, ?_⟩
        intro x hx
        rcases List.mem_cons.mp hx with hx | hx
        · rw [hx]
        · exact le_trans (hmax x hx) h

/-- Ten entries that sum to `1` have a largest entry of at least `1/10`. -/
theorem max_of_ten_summing_to_one (v : List ℚ) (m : ℚ) (hlen : v.length = 10)
    (hsum : v.sum = 1) (hmax : ∀ x ∈ v, x ≤ m) : 1 / 10 ≤ m := by
  have h := List.sum_le_card_nsmul v m hmax
  rw [hlen, hsum] at h
  simp only [nsmul_eq_mul, Nat.cast_ofNat] at h
  linarith

theorem class_names_not_unknown : ∀ name ∈ CLASS_NAMES, name ≠ "Unknown" := by decide

/-- C12: for a loaded model, a valid image that the runtime preprocesses, and an output vector
of ten entries that sum to `1` (a probability vector over the ten classes; that the entries are
non-negative is not needed), the maximum entry is at least `1/10`, the confidence threshold, so
`predict` does not take the branch below the threshold: the result is confident, its confidence
is that maximum, and its class is one of the ten display names, none of which is `Unknown`. -/
theorem predict_probability_vector_confident (self : PlantDiseaseModel) (rt : Runtime)
    (img : HTMLImageElement) (model : LayersModel) (v : List ℚ)
    (hmodel : self.model = some model)
    (hw : 32 ≤ img.width) (hh : 32 ≤ img.height) (hc : img.complete = true)
    (hpix : rt.pixelsOk = true) (hout : rt.output = .ok v) (hlen : v.length = 10)
    (hsum : v.sum = 1) :
    (∃ m ∈ v, (∀ x ∈ v, x ≤ m) ∧ confidenceThreshold ≤ m ∧ confidenceThreshold = 1 / 10 ∧
      (self.predict rt (.htmlImage img)).1.confidence = some m) ∧
    (self.predict rt (.htmlImage img)).1.isConfident = true ∧
    (∃ name ∈ CLASS_NAMES, (self.predict rt (.htmlImage img)).1.className = some name ∧
      name ≠ "Unknown") := by
  have hne : v ≠ [] := by
    intro h
    rw [h] at hlen
    cases hlen
  obtain ⟨m, hmem, hmax⟩ := exists_max_entry v hne
  have hge : 1 / 10 ≤ m := max_of_ten_summing_to_one v m hlen hsum hmax
  obtain ⟨i, _, hi, hfirst⟩ := indexOf_of_mem m v hmem
  obtain ⟨h1, h2, h3, _⟩ :=
    predict_top_class_aux self rt img model v m i hmodel hw hh hc hpix hout hi hfirst hmax hge
  have hlt : i < CLASS_NAMES.length := by
    have := (List.getElem?_eq_some_iff.mp hi).1
    have hl : CLASS_NAMES.length = 10 := rfl
    omega
  refine ⟨⟨m, hmem, hmax, hge, rfl, h2⟩, h1, ⟨CLASS_NAMES[i], List.getElem_mem _, ?_,
    class_names_not_unknown _ (List.getElem_mem _)⟩⟩
  rw [h3]
  exact List.getElem?_eq_getElem hlt

/-- The example of the specification sums to `1`: the result is confident. -/
theorem predict_probability_vector_confident_witness :
    healthyOutput.sum = 1 ∧
    (loadedModel.predict healthyRuntime (.htmlImage photo)).1.isConfident = true ∧
    ∃ name ∈ CLASS_NAMES,
      (loadedModel.predict healthyRuntime (.htmlImage photo)).1.className = some name ∧
      name ≠ "Unknown" :=
  have hsum : healthyOutput.sum = 1 := by norm_num [healthyOutput]
  have h := predict_probability_vector_confident loadedModel healthyRuntime photo sampleNetwork
    healthyOutput rfl (by decide) (by decide) rfl rfl rfl rfl hsum
  ⟨hsum, h.2.1, h.2.2⟩

end AgriEdu
